import Mathlib

/-!
# IK handshake driver of go-libp2p-noise (`ik_handshake.go`)

A shallow embedding of `runIK`, `ikSendHandshakeMessage`,
`ikRecvHandshakeMessage`, `runIKAsInitiator` and `runIKAsResponder`.

Conventions of the embedding

* A Go `error` is `Option String`: `none` is `nil`, `some m` is an error whose
  `Error()` text is `m`.  `fmt.Errorf("...%s", err)` is string concatenation.
* A returned `[]byte` is `Option Bytes`: `none` is the `nil` slice.
* The receiver `s *secureSession` is passed and returned explicitly.
* Everything the driver calls but which lives outside `ik_handshake.go`
  (the handshake engine, the message transport, the protobuf codec, the
  libp2p key and peer libraries, signature verification) is a field of the
  collaborator record `Env`; the driver is proved correct for every `Env`.
* `%x` applied to a `peer.ID` formats the text of its `String()` method (a
  `peer.ID` is a `fmt.Stringer`), two hexadecimal digits per byte of the text.
* `trace` is a ghost field: every call of `sendHandshakeMessage` /
  `recvHandshakeMessage` made by the driver is appended to it, with the
  arguments of the call.
-/

namespace Noise

/-! ## Data model -/

abbrev Byte := Fin 256

abbrev Bytes := List Byte

/-- Go `error`: `none` is `nil`, `some m` carries the text of `Error()`. -/
abbrev GoError := Option String

/-- Go `[32]byte`. -/
abbrev Key32 := { l : List Byte // l.length = 32 }

/-- The zero value `[32]byte{}`. -/
def zeroKey : Key32 := ⟨List.replicate 32 0, by simp⟩

/-- Go `peer.ID` (a string of bytes). -/
abbrev PeerID := Bytes

/-- Go `context.Context`, reduced to what `ctx.Err()` reports. -/
structure Context where
  Err : GoError
deriving DecidableEq, Repr

/-- The session's own Noise key pair, `s.noiseKeypair`. -/
structure Keypair where
  publicKey : Key32
  privateKey : Key32
deriving DecidableEq

/-- Modelled from the spec: the type `handshake.Keypair` (its declaration is in
the `handshake` package) is the "localKeypair" handed to `initSession`, a
public and a private 32-byte key. -/
structure HandshakeKeypair where
  public_key : Key32
  private_key : Key32
deriving DecidableEq

/-- Modelled from the spec: `handshake.NewKeypair(pub, priv)` packs the two
keys into a `handshake.Keypair`. -/
def NewKeypair (pub priv : Key32) : HandshakeKeypair := ⟨pub, priv⟩

/-- Modelled from the spec: the type `pb.NoiseHandshakePayload` (declared in the
`pb` package) is the Identity Payload "(identity public key bytes, signature
bytes, optional application data)". -/
structure NoiseHandshakePayload where
  IdentityKey : Bytes
  IdentitySig : Bytes
  Data : Bytes
deriving DecidableEq, Repr

/-- The generated getter `nhp.GetIdentityKey()`. -/
def NoiseHandshakePayload.GetIdentityKey (nhp : NoiseHandshakePayload) : Bytes :=
  nhp.IdentityKey

/-- The encode function handed to `sendHandshakeMessage`. -/
inductive EncodeFn where
  | IKEncode0
  | IKEncode1
deriving DecidableEq, Repr

/-- The decode function handed to `recvHandshakeMessage`. -/
inductive DecodeFn where
  | IKDecode0
  | IKDecode1
deriving DecidableEq, Repr

/-- The transmit function handed to `sendHandshakeMessage`. -/
inductive SendFn where
  | IKSendMessage
deriving DecidableEq, Repr

/-- The receive function handed to `recvHandshakeMessage`. -/
inductive RecvFn where
  | IKRecvMessage
deriving DecidableEq, Repr

/-- One call of the message transport made by the driver. -/
inductive NetEvent where
  | send (payload : Bytes) (encode : EncodeFn) (xmit : SendFn)
  | recv (decode : DecodeFn) (rcv : RecvFn)
deriving DecidableEq, Repr

/-- Whether a transport call is a send. -/
def NetEvent.isSend : NetEvent → Bool
  | .send _ _ _ => true
  | .recv _ _ => false

/-- Whether a transport call is a receive. -/
def NetEvent.isRecv : NetEvent → Bool
  | .send _ _ _ => false
  | .recv _ _ => true

/-- Modelled from the spec: the static key cache `KeyCache` (declared outside
`ik_handshake.go`) is a "mapping from stable remote identifier → remote
transport static public key, 32 bytes", read only by the driver, with the
all-zero key as the sentinel for "unknown". -/
structure KeyCache where
  Load : PeerID → Key32

variable {NS Conn PubKey : Type}

/-- The receiver `secureSession`, with the fields `ik_handshake.go` touches.
`NS` is the handshake engine state (`s.ns`), `Conn` the state of the
underlying connection, `PubKey` the values of `crypto.PubKey` (the `nil`
interface included).  `remoteKey` is the remote libp2p public key that
`s.RemotePublicKey()` reads; `trace` is the ghost log of transport calls. -/
structure secureSession (NS Conn PubKey : Type) where
  initiator : Bool
  prologue : Bytes
  noiseKeypair : Keypair
  noiseStaticKeyCache : KeyCache
  remotePeer : PeerID
  remoteKey : PubKey
  ns : NS
  conn : Conn
  trace : List NetEvent

/-- The collaborators of the driver.

* `IKInitSession`, `RemoteKey`: the handshake engine (`handshake` package).
* `sendHandshakeMessage`, `recvHandshakeMessage`: the session's transport
  helpers; they read and update the engine state and the connection.
* `Unmarshal`: `proto.Unmarshal` into a fresh `pb.NoiseHandshakePayload`.
* `UnmarshalPublicKey`: `crypto.UnmarshalPublicKey`.
* `IDFromPublicKey`: `peer.IDFromPublicKey`, which returns an id and an error.
* `Pretty`: `peer.ID.Pretty`.
* `IDString`: `peer.ID.String`, the `fmt.Stringer` method of an identifier; in
  go-libp2p-core it returns the text that `Pretty` returns.
* `verifyPayload`: the session's signature check; it reads the session and
  returns an error. -/
structure Env (NS Conn PubKey : Type) where
  IKInitSession : Bool → Bytes → HandshakeKeypair → Key32 → NS
  RemoteKey : NS → Key32
  sendHandshakeMessage : NS → Conn → Bytes → EncodeFn → SendFn → GoError × NS × Conn
  recvHandshakeMessage : NS → Conn → DecodeFn → RecvFn →
    (Option Bytes × Bytes × GoError) × NS × Conn
  Unmarshal : Bytes → GoError × NoiseHandshakePayload
  UnmarshalPublicKey : Bytes → PubKey × GoError
  IDFromPublicKey : PubKey → PeerID × GoError
  Pretty : PeerID → String
  IDString : PeerID → String
  verifyPayload : secureSession NS Conn PubKey → NoiseHandshakePayload → Key32 → GoError

/-! ## Formatting -/

/-- One lower-case hexadecimal digit. -/
def hexDigit (n : Nat) : Char :=
  if n < 10 then Char.ofNat (48 + n) else Char.ofNat (87 + n)

/-- Two lower-case hexadecimal digits per byte. -/
def hexString (b : Bytes) : String :=
  String.mk (b.flatMap fun x => [hexDigit (x.val / 16), hexDigit (x.val % 16)])

/-- The bytes of a Go string holding the text `t` (its UTF-8 encoding). -/
def utf8Bytes (t : String) : Bytes :=
  t.data.flatMap fun c =>
    (String.utf8EncodeChar c).map fun b => ⟨b.toNat % 256, Nat.mod_lt _ (by decide)⟩

/-- The verb `%x` of `fmt` applied to a string: the bytes of the string, two
lower-case hexadecimal digits each. -/
def fmtX (t : String) : String :=
  hexString (utf8Bytes t)

/-- The verb `%x` of `fmt` applied to a `peer.ID`.  A `peer.ID` is a
`fmt.Stringer`, so `fmt` formats the text of its `String()` method. -/
def fmtXPeerID (E : Env NS Conn PubKey) (id : PeerID) : String :=
  fmtX (E.IDString id)

/-! ## Session helpers outside `ik_handshake.go` -/

/-- The accessor `s.RemotePublicKey()`. -/
def RemotePublicKey (s : secureSession NS Conn PubKey) : PubKey :=
  s.remoteKey

/-- Modelled from the spec: `setRemotePeerInfo` (defined outside
`ik_handshake.go`) installs the identity public key decoded from the payload's
identity key bytes as the session's remote public key ("exposes the remote
identity public key once learned") and returns the decoding error. -/
def setRemotePeerInfo (E : Env NS Conn PubKey) (s : secureSession NS Conn PubKey)
    (key : Bytes) : GoError × secureSession NS Conn PubKey :=
  let r := E.UnmarshalPublicKey key
  (r.2, { s with remoteKey := r.1 })

/-- Modelled from the spec: `setRemotePeerID` (defined outside
`ik_handshake.go`) derives the identifier from the given public key and adopts
it "as the session's remote identity", returning the derivation error. -/
def setRemotePeerID (E : Env NS Conn PubKey) (s : secureSession NS Conn PubKey)
    (key : PubKey) : GoError × secureSession NS Conn PubKey :=
  let r := E.IDFromPublicKey key
  (r.2, { s with remotePeer := r.1 })

/-! ## `ik_handshake.go` -/

/-- Source: `ikSendHandshakeMessage`. -/
def ikSendHandshakeMessage (E : Env NS Conn PubKey) (s : secureSession NS Conn PubKey)
    (payload : Bytes) (initial_stage : Bool) : GoError × secureSession NS Conn PubKey :=
  if initial_stage then
    let r := E.sendHandshakeMessage s.ns s.conn payload .IKEncode0 .IKSendMessage
    (r.1, { s with ns := r.2.1, conn := r.2.2,
                   trace := s.trace ++ [.send payload .IKEncode0 .IKSendMessage] })
  else
    let r := E.sendHandshakeMessage s.ns s.conn payload .IKEncode1 .IKSendMessage
    (r.1, { s with ns := r.2.1, conn := r.2.2,
                   trace := s.trace ++ [.send payload .IKEncode1 .IKSendMessage] })

/-- Source: `ikRecvHandshakeMessage`; the result is `(buf, plaintext, err)`. -/
def ikRecvHandshakeMessage (E : Env NS Conn PubKey) (s : secureSession NS Conn PubKey)
    (initial_stage : Bool) :
    (Option Bytes × Bytes × GoError) × secureSession NS Conn PubKey :=
  if initial_stage then
    let r := E.recvHandshakeMessage s.ns s.conn .IKDecode0 .IKRecvMessage
    (r.1, { s with ns := r.2.1, conn := r.2.2,
                   trace := s.trace ++ [.recv .IKDecode0 .IKRecvMessage] })
  else
    let r := E.recvHandshakeMessage s.ns s.conn .IKDecode1 .IKRecvMessage
    (r.1, { s with ns := r.2.1, conn := r.2.2,
                   trace := s.trace ++ [.recv .IKDecode1 .IKRecvMessage] })

/-- Source: `runIKAsInitiator`; the result is `((bytes, err), s)`. -/
def runIKAsInitiator (E : Env NS Conn PubKey) (s : secureSession NS Conn PubKey)
    (_ctx : Context) (payload : Bytes) :
    (Option Bytes × GoError) × secureSession NS Conn PubKey :=
  let remoteNoiseKey := s.noiseStaticKeyCache.Load s.remotePeer
  -- bail out early when the remote Noise key is unknown
  if remoteNoiseKey = zeroKey then
    ((none, some ("runIK aborting - unknown static key for peer " ++ E.Pretty s.remotePeer)), s)
  else
    -- stage 0
    match ikSendHandshakeMessage E s payload true with
    | (some err, s) => ((none, some ("runIK stage=0 initiator=true err=" ++ err)), s)
    | (none, s) =>
      -- stage 1: read message
      match ikRecvHandshakeMessage E s false with
      | ((buf, _, some err), s) =>
        ((buf, some ("runIK stage=1 initiator=true err=" ++ err)), s)
      | ((buf, plaintext, none), s) =>
        -- unmarshal payload
        match E.Unmarshal plaintext with
        | (some _, _) =>
          ((buf, some "runIK stage=1 initiator=true err=validation fail: cannot unmarshal payload"), s)
        | (none, nhp) =>
          -- set remote libp2p public key
          match setRemotePeerInfo E s nhp.GetIdentityKey with
          | (some _, s) =>
            ((buf, some "runIK stage=1 initiator=true err=read remote libp2p key fail"), s)
          | (none, s) =>
            -- assert that remote peer ID matches libp2p public key
            match E.IDFromPublicKey (RemotePublicKey s) with
            | (pid, err) =>
              if pid ≠ s.remotePeer then
                ((buf, some ("runIK stage=1 initiator=true  check remote peer id err: expected "
                  ++ fmtXPeerID E s.remotePeer ++ " got " ++ fmtXPeerID E pid)), s)
              else
                match err with
                | some e =>
                  ((buf, some ("runIK stage=1 initiator=true  check remote peer id err " ++ e)), s)
                | none =>
                  -- verify payload is signed by libp2p key
                  match E.verifyPayload s nhp remoteNoiseKey with
                  | some e =>
                    ((buf, some ("runIK stage=1 initiator=true verify payload err=" ++ e)), s)
                  | none => ((buf, none), s)

/-- Source: `runIKAsResponder`; the result is `((bytes, err), s)`. -/
def runIKAsResponder (E : Env NS Conn PubKey) (s : secureSession NS Conn PubKey)
    (_ctx : Context) (payload : Bytes) :
    (Option Bytes × GoError) × secureSession NS Conn PubKey :=
  -- stage 0: read message
  match ikRecvHandshakeMessage E s true with
  | ((buf, _, some err), s) =>
    ((buf, some ("runIK stage=0 initiator=false err=" ++ err)), s)
  | ((buf, plaintext, none), s) =>
    -- unmarshal payload
    match E.Unmarshal plaintext with
    | (some _, _) =>
      ((buf, some "runIK stage=0 initiator=false err=validation fail: cannot unmarshal payload"), s)
    | (none, nhp) =>
      -- set remote libp2p public key
      match setRemotePeerInfo E s nhp.GetIdentityKey with
      | (some _, s) =>
        ((buf, some "runIK stage=0 initiator=false err=read remote libp2p key fail"), s)
      | (none, s) =>
        -- assert that remote peer ID matches libp2p key
        match setRemotePeerID E s (RemotePublicKey s) with
        | (some e, s) =>
          ((buf, some ("runIK stage=0 initiator=false set remote peer id err=" ++ e ++ ":")), s)
        | (none, s) =>
          -- verify payload is signed by libp2p key
          match E.verifyPayload s nhp (E.RemoteKey s.ns) with
          | some e =>
            ((buf, some ("runIK stage=0 initiator=false verify payload err=" ++ e)), s)
          | none =>
            -- stage 1
            match ikSendHandshakeMessage E s payload false with
            | (some e, s) =>
              ((none, some ("runIK stage=1 initiator=false send err=" ++ e)), s)
            | (none, s) => ((buf, none), s)

/-- Source: `runIK`. -/
def runIK (E : Env NS Conn PubKey) (s : secureSession NS Conn PubKey)
    (ctx : Context) (payload : Bytes) :
    (Option Bytes × GoError) × secureSession NS Conn PubKey :=
  let kp := NewKeypair s.noiseKeypair.publicKey s.noiseKeypair.privateKey
  let remoteNoiseKey := s.noiseStaticKeyCache.Load s.remotePeer
  -- new IK noise session
  let s := { s with ns := E.IKInitSession s.initiator s.prologue kp remoteNoiseKey }
  if s.initiator then
    runIKAsInitiator E s ctx payload
  else
    runIKAsResponder E s ctx payload

/-! ## Checkpoints of a run

The intermediate results of the two walks, named so that statements can refer
to them.  Each is the call the driver makes at that point, on the session as
it stands there. -/

/-- Initiator, stage 0: the send of the caller payload. -/
def iSent (E : Env NS Conn PubKey) (s : secureSession NS Conn PubKey) (payload : Bytes) :
    GoError × secureSession NS Conn PubKey :=
  ikSendHandshakeMessage E s payload true

/-- Initiator, stage 1: the receive that follows the send. -/
def iRecvd (E : Env NS Conn PubKey) (s : secureSession NS Conn PubKey) (payload : Bytes) :
    (Option Bytes × Bytes × GoError) × secureSession NS Conn PubKey :=
  ikRecvHandshakeMessage E (iSent E s payload).2 false

/-- Initiator: `proto.Unmarshal` of the received plaintext. -/
def iPayload (E : Env NS Conn PubKey) (s : secureSession NS Conn PubKey) (payload : Bytes) :
    GoError × NoiseHandshakePayload :=
  E.Unmarshal (iRecvd E s payload).1.2.1

/-- Initiator: `setRemotePeerInfo` on the identity key of the payload. -/
def iKeySet (E : Env NS Conn PubKey) (s : secureSession NS Conn PubKey) (payload : Bytes) :
    GoError × secureSession NS Conn PubKey :=
  setRemotePeerInfo E (iRecvd E s payload).2 (iPayload E s payload).2.GetIdentityKey

/-- Initiator: `peer.IDFromPublicKey(s.RemotePublicKey())`. -/
def iDerived (E : Env NS Conn PubKey) (s : secureSession NS Conn PubKey) (payload : Bytes) :
    PeerID × GoError :=
  E.IDFromPublicKey (RemotePublicKey (iKeySet E s payload).2)

/-- Responder, stage 0: the receive. -/
def rRecvd (E : Env NS Conn PubKey) (s : secureSession NS Conn PubKey) :
    (Option Bytes × Bytes × GoError) × secureSession NS Conn PubKey :=
  ikRecvHandshakeMessage E s true

/-- Responder: `proto.Unmarshal` of the received plaintext. -/
def rPayload (E : Env NS Conn PubKey) (s : secureSession NS Conn PubKey) :
    GoError × NoiseHandshakePayload :=
  E.Unmarshal (rRecvd E s).1.2.1

/-- Responder: `setRemotePeerInfo` on the identity key of the payload. -/
def rKeySet (E : Env NS Conn PubKey) (s : secureSession NS Conn PubKey) :
    GoError × secureSession NS Conn PubKey :=
  setRemotePeerInfo E (rRecvd E s).2 (rPayload E s).2.GetIdentityKey

/-- Responder: `setRemotePeerID(s.RemotePublicKey())`. -/
def rPeerSet (E : Env NS Conn PubKey) (s : secureSession NS Conn PubKey) :
    GoError × secureSession NS Conn PubKey :=
  setRemotePeerID E (rKeySet E s).2 (RemotePublicKey (rKeySet E s).2)

/-- Responder, stage 1: the send of the caller payload. -/
def rSent (E : Env NS Conn PubKey) (s : secureSession NS Conn PubKey) (payload : Bytes) :
    GoError × secureSession NS Conn PubKey :=
  ikSendHandshakeMessage E (rPeerSet E s).2 payload false

/-- The session as `runIK` hands it to the role walk: the engine state is the
fresh one made by `IKInitSession` from the cached key of `s.remotePeer`. -/
def started (E : Env NS Conn PubKey) (s : secureSession NS Conn PubKey) :
    secureSession NS Conn PubKey :=
  let kp := NewKeypair s.noiseKeypair.publicKey s.noiseKeypair.privateKey
  let remoteNoiseKey := s.noiseStaticKeyCache.Load s.remotePeer
  { s with ns := E.IKInitSession s.initiator s.prologue kp remoteNoiseKey }

/-- Whether every step of the responder that precedes the stage-1 send passed:
receive, unmarshal, `setRemotePeerInfo`, `setRemotePeerID`, `verifyPayload`. -/
def rChecksPass (E : Env NS Conn PubKey) (s : secureSession NS Conn PubKey) : Prop :=
  (rRecvd E s).1.2.2 = none ∧ (rPayload E s).1 = none ∧ (rKeySet E s).1 = none ∧
    (rPeerSet E s).1 = none ∧
    E.verifyPayload (rPeerSet E s).2 (rPayload E s).2 (E.RemoteKey (rPeerSet E s).2.ns) = none

/-! ## A concrete collaborator set

A small executable instance used to evaluate the driver on concrete inputs.
The engine state is the number of leading bytes the decoder strips, the
connection is the queue of inbound messages, a public key is its bytes, and
the identifier of a key is its first byte. -/

/-- The 32-byte key `b, 0, ..., 0`. -/
def keyOf (b : Byte) : Key32 := ⟨b :: List.replicate 31 0, by simp⟩

/-- The sample collaborators; `verify` is the signature check to use. -/
def sampleEnv
    (verify : secureSession Nat (List Bytes) Bytes → NoiseHandshakePayload → Key32 → GoError) :
    Env Nat (List Bytes) Bytes where
  IKInitSession := fun _ prologue _ _ => prologue.length
  RemoteKey := fun _ => keyOf 7
  sendHandshakeMessage := fun ns c payload _ _ =>
    match payload with
    | [] => (some "short write", ns, c)
    | _ :: _ => (none, ns, c)
  recvHandshakeMessage := fun ns c _ _ =>
    match c with
    | [] => ((none, [], some "EOF"), ns, c)
    | m :: rest => ((some m, m.drop ns, none), ns, rest)
  Unmarshal := fun p =>
    match p with
    | [] => (some "unexpected EOF", ⟨[], [], []⟩)
    | _ :: _ => (none, ⟨p, [], []⟩)
  UnmarshalPublicKey := fun k => (k, none)
  IDFromPublicKey := fun k => (k.take 1, none)
  Pretty := hexString
  IDString := hexString
  verifyPayload := verify

/-- A signature check that accepts everything. -/
def verifyAny (_ : secureSession Nat (List Bytes) Bytes) (_ : NoiseHandshakePayload)
    (_ : Key32) : GoError := none

/-- A signature check that accepts exactly the bindings to the key `k`. -/
def verifyOnly (k : Key32) (_ : secureSession Nat (List Bytes) Bytes)
    (_ : NoiseHandshakePayload) (key : Key32) : GoError :=
  if key = k then none else some "invalid signature"

/-- A sample session: peer `remote` is dialed, the cache holds `cached` for
every peer, `inbound` is the queue of messages the connection will deliver. -/
def sampleSession (isInitiator : Bool) (prologue : Bytes) (remote : PeerID) (cached : Key32)
    (inbound : List Bytes) : secureSession Nat (List Bytes) Bytes where
  initiator := isInitiator
  prologue := prologue
  noiseKeypair := ⟨keyOf 1, keyOf 2⟩
  noiseStaticKeyCache := ⟨fun _ => cached⟩
  remotePeer := remote
  remoteKey := []
  ns := prologue.length
  conn := inbound
  trace := []

/-- A context that is not cancelled. -/
def background : Context := ⟨none⟩

/-- A context that was cancelled before the call: `ctx.Err()` is non-nil. -/
def cancelled : Context := ⟨some "context canceled"⟩

/-- The sample collaborators with a `peer.IDFromPublicKey` that returns the
identifier of the key together with an error. -/
def sampleEnvBadID : Env Nat (List Bytes) Bytes :=
  { sampleEnv verifyAny with IDFromPublicKey := fun k => (k.take 1, some "bad key") }

/-! ## Reading error messages -/

/-- The message `m` starts with the text `p`. -/
def startsWith (m p : String) : Prop := p.data <+: m.data

/-- The message `m` contains the text `t`. -/
def containsText (m t : String) : Prop := t.data <:+: m.data

instance (m p : String) : Decidable (startsWith m p) :=
  inferInstanceAs (Decidable (p.data <+: m.data))

instance (m t : String) : Decidable (containsText m t) :=
  inferInstanceAs (Decidable (t.data <:+: m.data))

/-- The message carries a stage tag and the role tag of the given role. -/
def tagged (isInitiator : Bool) (m : String) : Prop :=
  (containsText m "stage=0" ∨ containsText m "stage=1") ∧
    containsText m (if isInitiator then "initiator=true" else "initiator=false")

instance (isInitiator : Bool) (m : String) : Decidable (tagged isInitiator m) :=
  inferInstanceAs (Decidable (_ ∧ _))

/-- The message opens with the wrapper of the driver for the given role:
`runIK stage=0` or `runIK stage=1`, then `initiator=true` or
`initiator=false`. -/
def wrapped : Bool → String → Prop
  | true, m =>
    startsWith m "runIK stage=0 initiator=true" ∨ startsWith m "runIK stage=1 initiator=true"
  | false, m =>
    startsWith m "runIK stage=0 initiator=false" ∨ startsWith m "runIK stage=1 initiator=false"

instance : (isInitiator : Bool) → (m : String) → Decidable (wrapped isInitiator m)
  | true, _ => inferInstanceAs (Decidable (_ ∨ _))
  | false, _ => inferInstanceAs (Decidable (_ ∨ _))

/-- The three kinds of authentication failure of a walk: the identity check
(identifier mismatch or derivation failure), the signature check, and a
payload that does not unmarshal. -/
inductive FailureKind where
  | identity
  | signature
  | malformed
deriving DecidableEq, Repr

/-- The initiator run stops at the check of the given kind: the cached key is
known, send and receive succeeded, and that check is the first to fail. -/
def iFailsAt (E : Env NS Conn PubKey) (s : secureSession NS Conn PubKey) (payload : Bytes) :
    FailureKind → Prop
  | .malformed =>
    s.noiseStaticKeyCache.Load s.remotePeer ≠ zeroKey ∧ (iSent E s payload).1 = none ∧
      (iRecvd E s payload).1.2.2 = none ∧ (iPayload E s payload).1 ≠ none
  | .identity =>
    s.noiseStaticKeyCache.Load s.remotePeer ≠ zeroKey ∧ (iSent E s payload).1 = none ∧
      (iRecvd E s payload).1.2.2 = none ∧ (iPayload E s payload).1 = none ∧
      (iKeySet E s payload).1 = none ∧
      ((iDerived E s payload).1 ≠ s.remotePeer ∨ (iDerived E s payload).2 ≠ none)
  | .signature =>
    s.noiseStaticKeyCache.Load s.remotePeer ≠ zeroKey ∧ (iSent E s payload).1 = none ∧
      (iRecvd E s payload).1.2.2 = none ∧ (iPayload E s payload).1 = none ∧
      (iKeySet E s payload).1 = none ∧
      (iDerived E s payload).1 = s.remotePeer ∧ (iDerived E s payload).2 = none ∧
      E.verifyPayload (iKeySet E s payload).2 (iPayload E s payload).2
        (s.noiseStaticKeyCache.Load s.remotePeer) ≠ none

/-- The responder run stops at the check of the given kind: the receive
succeeded and that check is the first to fail. -/
def rFailsAt (E : Env NS Conn PubKey) (s : secureSession NS Conn PubKey) :
    FailureKind → Prop
  | .malformed => (rRecvd E s).1.2.2 = none ∧ (rPayload E s).1 ≠ none
  | .identity =>
    (rRecvd E s).1.2.2 = none ∧ (rPayload E s).1 = none ∧ (rKeySet E s).1 = none ∧
      (rPeerSet E s).1 ≠ none
  | .signature =>
    (rRecvd E s).1.2.2 = none ∧ (rPayload E s).1 = none ∧ (rKeySet E s).1 = none ∧
      (rPeerSet E s).1 = none ∧
      E.verifyPayload (rPeerSet E s).2 (rPayload E s).2 (E.RemoteKey (rPeerSet E s).2.ns) ≠ none

/-! ## The two walks in terms of their checkpoints -/

/-- The initiator walk, step by step, over the checkpoints. -/
theorem runIKAsInitiator_eq (E : Env NS Conn PubKey) (s : secureSession NS Conn PubKey)
    (ctx : Context) (payload : Bytes) :
    runIKAsInitiator E s ctx payload =
      if s.noiseStaticKeyCache.Load s.remotePeer = zeroKey then
        ((none, some ("runIK aborting - unknown static key for peer " ++ E.Pretty s.remotePeer)),
          s)
      else match (iSent E s payload).1 with
        | some e => ((none, some ("runIK stage=0 initiator=true err=" ++ e)), (iSent E s payload).2)
        | none =>
          match (iRecvd E s payload).1.2.2 with
          | some e =>
            (((iRecvd E s payload).1.1, some ("runIK stage=1 initiator=true err=" ++ e)),
              (iRecvd E s payload).2)
          | none =>
            match (iPayload E s payload).1 with
            | some _ =>
              (((iRecvd E s payload).1.1,
                some "runIK stage=1 initiator=true err=validation fail: cannot unmarshal payload"),
                (iRecvd E s payload).2)
            | none =>
              match (iKeySet E s payload).1 with
              | some _ =>
                (((iRecvd E s payload).1.1,
                  some "runIK stage=1 initiator=true err=read remote libp2p key fail"),
                  (iKeySet E s payload).2)
              | none =>
                if (iDerived E s payload).1 ≠ s.remotePeer then
                  (((iRecvd E s payload).1.1,
                    some ("runIK stage=1 initiator=true  check remote peer id err: expected "
                      ++ fmtXPeerID E s.remotePeer ++ " got "
                      ++ fmtXPeerID E (iDerived E s payload).1)),
                    (iKeySet E s payload).2)
                else
                  match (iDerived E s payload).2 with
                  | some e =>
                    (((iRecvd E s payload).1.1,
                      some ("runIK stage=1 initiator=true  check remote peer id err " ++ e)),
                      (iKeySet E s payload).2)
                  | none =>
                    match E.verifyPayload (iKeySet E s payload).2 (iPayload E s payload).2
                        (s.noiseStaticKeyCache.Load s.remotePeer) with
                    | some e =>
                      (((iRecvd E s payload).1.1,
                        some ("runIK stage=1 initiator=true verify payload err=" ++ e)),
                        (iKeySet E s payload).2)
                    | none => (((iRecvd E s payload).1.1, none), (iKeySet E s payload).2) := by
  unfold runIKAsInitiator iDerived iKeySet iPayload iRecvd iSent
  by_cases hk : s.noiseStaticKeyCache.Load s.remotePeer = zeroKey
  · simp [hk]
  · simp only [hk, if_false]
    rcases h1 : ikSendHandshakeMessage E s payload true with ⟨_ | e1, s1⟩
    · rcases h2 : ikRecvHandshakeMessage E s1 false with ⟨⟨buf, pt, _ | e2⟩, s2⟩
      · rcases h3 : E.Unmarshal pt with ⟨_ | e3, nhp⟩
        · rcases h4 : setRemotePeerInfo E s2 nhp.GetIdentityKey with ⟨_ | e4, s3⟩
          · have hp : s3.remotePeer = s.remotePeer := by
              have e3 := congrArg (fun r => r.2.remotePeer) h4
              have e2 := congrArg (fun r => r.2.remotePeer) h2
              have e1 := congrArg (fun r => r.2.remotePeer) h1
              simp [setRemotePeerInfo, ikRecvHandshakeMessage, ikSendHandshakeMessage] at e1 e2 e3
              rw [← e3, ← e2, ← e1]
            simp only [h2, h3, h4, hp]
          · simp [h2, h3, h4]
        · simp [h2, h3]
      · simp [h2]
    · simp

/-- The responder walk, step by step, over the checkpoints. -/
theorem runIKAsResponder_eq (E : Env NS Conn PubKey) (s : secureSession NS Conn PubKey)
    (ctx : Context) (payload : Bytes) :
    runIKAsResponder E s ctx payload =
      match (rRecvd E s).1.2.2 with
      | some e =>
        (((rRecvd E s).1.1, some ("runIK stage=0 initiator=false err=" ++ e)), (rRecvd E s).2)
      | none =>
        match (rPayload E s).1 with
        | some _ =>
          (((rRecvd E s).1.1,
            some "runIK stage=0 initiator=false err=validation fail: cannot unmarshal payload"),
            (rRecvd E s).2)
        | none =>
          match (rKeySet E s).1 with
          | some _ =>
            (((rRecvd E s).1.1,
              some "runIK stage=0 initiator=false err=read remote libp2p key fail"),
              (rKeySet E s).2)
          | none =>
            match (rPeerSet E s).1 with
            | some e =>
              (((rRecvd E s).1.1,
                some ("runIK stage=0 initiator=false set remote peer id err=" ++ e ++ ":")),
                (rPeerSet E s).2)
            | none =>
              match E.verifyPayload (rPeerSet E s).2 (rPayload E s).2
                  (E.RemoteKey (rPeerSet E s).2.ns) with
              | some e =>
                (((rRecvd E s).1.1,
                  some ("runIK stage=0 initiator=false verify payload err=" ++ e)),
                  (rPeerSet E s).2)
              | none =>
                match (rSent E s payload).1 with
                | some e =>
                  ((none, some ("runIK stage=1 initiator=false send err=" ++ e)),
                    (rSent E s payload).2)
                | none => (((rRecvd E s).1.1, none), (rSent E s payload).2) := by
  unfold runIKAsResponder rSent rPeerSet rKeySet rPayload rRecvd
  rcases h1 : ikRecvHandshakeMessage E s true with ⟨⟨buf, pt, _ | e1⟩, s1⟩
  · rcases h2 : E.Unmarshal pt with ⟨_ | e2, nhp⟩
    · rcases h3 : setRemotePeerInfo E s1 nhp.GetIdentityKey with ⟨_ | e3, s2⟩
      · rcases h4 : setRemotePeerID E s2 (RemotePublicKey s2) with ⟨_ | e4, s3⟩
        · rcases h5 : E.verifyPayload s3 nhp (E.RemoteKey s3.ns) with _ | e5
          · rcases h6 : ikSendHandshakeMessage E s3 payload false with ⟨_ | e6, s4⟩
            · simp [h2, h3, h4, h5, h6]
            · simp [h2, h3, h4, h5, h6]
          · simp [h2, h3, h4, h5]
        · simp [h2, h3, h4]
      · simp [h2, h3]
    · simp [h2]
  · simp

/-- The stage-0 send of the initiator logs one send and leaves the dialed
identifier alone. -/
theorem iSent_frame (E : Env NS Conn PubKey) (s : secureSession NS Conn PubKey)
    (payload : Bytes) :
    (iSent E s payload).2.trace = s.trace ++ [.send payload .IKEncode0 .IKSendMessage] ∧
      (iSent E s payload).2.remotePeer = s.remotePeer := by
  simp [iSent, ikSendHandshakeMessage]

/-- The stage-1 receive of the initiator logs one receive after the send. -/
theorem iRecvd_frame (E : Env NS Conn PubKey) (s : secureSession NS Conn PubKey)
    (payload : Bytes) :
    (iRecvd E s payload).2.trace =
        s.trace ++ [.send payload .IKEncode0 .IKSendMessage, .recv .IKDecode1 .IKRecvMessage] ∧
      (iRecvd E s payload).2.remotePeer = s.remotePeer := by
  simp [iRecvd, ikRecvHandshakeMessage, iSent, ikSendHandshakeMessage]

/-- Installing the remote key changes neither the log nor the dialed identifier. -/
theorem iKeySet_frame (E : Env NS Conn PubKey) (s : secureSession NS Conn PubKey)
    (payload : Bytes) :
    (iKeySet E s payload).2.trace = (iRecvd E s payload).2.trace ∧
      (iKeySet E s payload).2.remotePeer = s.remotePeer ∧
      (iKeySet E s payload).2.ns = (iRecvd E s payload).2.ns := by
  simp [iKeySet, setRemotePeerInfo, iRecvd, ikRecvHandshakeMessage, iSent,
    ikSendHandshakeMessage]

/-- The stage-0 receive of the responder logs one receive. -/
theorem rRecvd_frame (E : Env NS Conn PubKey) (s : secureSession NS Conn PubKey) :
    (rRecvd E s).2.trace = s.trace ++ [.recv .IKDecode0 .IKRecvMessage] := by
  simp [rRecvd, ikRecvHandshakeMessage]

/-- The identity steps of the responder touch neither the log nor the engine. -/
theorem rPeerSet_frame (E : Env NS Conn PubKey) (s : secureSession NS Conn PubKey) :
    (rKeySet E s).2.trace = (rRecvd E s).2.trace ∧
      (rPeerSet E s).2.trace = (rRecvd E s).2.trace ∧
      (rPeerSet E s).2.ns = (rRecvd E s).2.ns := by
  simp [rPeerSet, setRemotePeerID, rKeySet, setRemotePeerInfo]

/-- The stage-1 send of the responder logs one send after the receive. -/
theorem rSent_frame (E : Env NS Conn PubKey) (s : secureSession NS Conn PubKey)
    (payload : Bytes) :
    (rSent E s payload).2.trace =
        s.trace ++ [.recv .IKDecode0 .IKRecvMessage, .send payload .IKEncode1 .IKSendMessage] ∧
      (rSent E s payload).2.remotePeer = (rPeerSet E s).2.remotePeer := by
  simp [rSent, ikSendHandshakeMessage, rPeerSet, setRemotePeerID, rKeySet, setRemotePeerInfo,
    rRecvd, ikRecvHandshakeMessage]

/-- The checkpoints of the initiator do not depend on the signature check. -/
theorem initiator_checkpoints_verify_free (E : Env NS Conn PubKey)
    (V : secureSession NS Conn PubKey → NoiseHandshakePayload → Key32 → GoError)
    (s : secureSession NS Conn PubKey) (payload : Bytes) :
    iSent { E with verifyPayload := V } s payload = iSent E s payload ∧
      iRecvd { E with verifyPayload := V } s payload = iRecvd E s payload ∧
      iPayload { E with verifyPayload := V } s payload = iPayload E s payload ∧
      iKeySet { E with verifyPayload := V } s payload = iKeySet E s payload ∧
      iDerived { E with verifyPayload := V } s payload = iDerived E s payload :=
  ⟨rfl, rfl, rfl, rfl, rfl⟩

/-- The checkpoints of the responder do not depend on the signature check. -/
theorem responder_checkpoints_verify_free (E : Env NS Conn PubKey)
    (V : secureSession NS Conn PubKey → NoiseHandshakePayload → Key32 → GoError)
    (s : secureSession NS Conn PubKey) (payload : Bytes) :
    rRecvd { E with verifyPayload := V } s = rRecvd E s ∧
      rPayload { E with verifyPayload := V } s = rPayload E s ∧
      rKeySet { E with verifyPayload := V } s = rKeySet E s ∧
      rPeerSet { E with verifyPayload := V } s = rPeerSet E s ∧
      rSent { E with verifyPayload := V } s payload = rSent E s payload :=
  ⟨rfl, rfl, rfl, rfl, rfl⟩

/-- The verb `%x` on a text: the base58 text `1LQo` prints as `314c516f`, and a
character outside ASCII prints as the bytes of its UTF-8 encoding. -/
theorem fmtX_samples : fmtX "1LQo" = "314c516f" ∧ fmtX "é" = "c3a9" ∧ fmtX "" = "" := by
  refine ⟨by decide, by decide, by decide⟩

/-! ## Initiator: success and the early failures -/

/-- C1. `runIKAsInitiator` returns a nil error exactly when every check of the
run passed: the cached static key of the dialed peer is not all-zero, the
stage-0 send succeeded, the stage-1 receive succeeded, the plaintext
unmarshalled, `setRemotePeerInfo` accepted the identity key,
`peer.IDFromPublicKey` returned no error and the dialed identifier, and
`verifyPayload` succeeded.  No failing check is reported as success. -/
theorem runIKAsInitiator_nil_iff_all_checks (E : Env NS Conn PubKey)
    (s : secureSession NS Conn PubKey) (ctx : Context) (payload : Bytes) :
    (runIKAsInitiator E s ctx payload).1.2 = none ↔
      (s.noiseStaticKeyCache.Load s.remotePeer ≠ zeroKey ∧
        (iSent E s payload).1 = none ∧
        (iRecvd E s payload).1.2.2 = none ∧
        (iPayload E s payload).1 = none ∧
        (iKeySet E s payload).1 = none ∧
        (iDerived E s payload).2 = none ∧
        (iDerived E s payload).1 = s.remotePeer ∧
        E.verifyPayload (iKeySet E s payload).2 (iPayload E s payload).2
          (s.noiseStaticKeyCache.Load s.remotePeer) = none) := by
  rw [runIKAsInitiator_eq]
  by_cases hk : s.noiseStaticKeyCache.Load s.remotePeer = zeroKey
  · simp [hk]
  · by_cases hid : (iDerived E s payload).1 = s.remotePeer
    · simp only [hk, hid, if_false, ne_eq, not_true_eq_false, not_false_eq_true, true_and]
      split <;> try simp_all
      split <;> try simp_all
      split <;> try simp_all
      split <;> try simp_all
      split <;> try simp_all
      split <;> simp_all
    · simp only [hk, hid, if_false, if_true, ne_eq, not_false_eq_true, true_and, false_and,
        and_false, iff_false]
      split <;> try simp_all
      split <;> try simp_all
      split <;> try simp_all
      split <;> simp_all

/-- C2. When the cache holds the all-zero key for the dialed peer,
`runIKAsInitiator` returns nil bytes and the "unknown static key" error, and
the session is returned as it was: no send and no receive is logged, so a run
started on an empty log ends on an empty log. -/
theorem runIKAsInitiator_unknown_static_key (E : Env NS Conn PubKey)
    (s : secureSession NS Conn PubKey) (ctx : Context) (payload : Bytes)
    (hzero : s.noiseStaticKeyCache.Load s.remotePeer = zeroKey) :
    (runIKAsInitiator E s ctx payload).1 =
        (none, some ("runIK aborting - unknown static key for peer " ++ E.Pretty s.remotePeer)) ∧
      (runIKAsInitiator E s ctx payload).2 = s ∧
      (runIKAsInitiator E s ctx payload).2.trace = s.trace ∧
      (s.trace = [] → (runIKAsInitiator E s ctx payload).2.trace = []) := by
  rw [runIKAsInitiator_eq]
  simp [hzero]

/-- Witness of C2: the sample initiator with an all-zero cache entry. -/
theorem runIKAsInitiator_unknown_static_key_witness :
    (runIKAsInitiator (sampleEnv verifyAny) (sampleSession true [] [1] zeroKey [[1, 2, 3]])
        background [5]).1 =
      (none, some "runIK aborting - unknown static key for peer 01") ∧
    (runIKAsInitiator (sampleEnv verifyAny) (sampleSession true [] [1] zeroKey [[1, 2, 3]])
        background [5]).2.trace = [] :=
  have h := runIKAsInitiator_unknown_static_key (sampleEnv verifyAny)
    (sampleSession true [] [1] zeroKey [[1, 2, 3]]) background [5] (by decide)
  ⟨h.1, h.2.2.2 rfl⟩

/-- C3. When the cached key is non-zero and the send, the receive, the
unmarshal and `setRemotePeerInfo` all succeed, an identifier derived from the
payload that differs from the dialed one makes `runIKAsInitiator` return the
"check remote peer id" mismatch error with the received bytes, in which `%x`
prints the two identifiers as the hexadecimal of their `String()` texts; the
result is the same for every signature check put in place of `verifyPayload`. -/
theorem runIKAsInitiator_identity_mismatch (E : Env NS Conn PubKey)
    (s : secureSession NS Conn PubKey) (ctx : Context) (payload : Bytes)
    (hkey : s.noiseStaticKeyCache.Load s.remotePeer ≠ zeroKey)
    (hsend : (iSent E s payload).1 = none)
    (hrecv : (iRecvd E s payload).1.2.2 = none)
    (hpay : (iPayload E s payload).1 = none)
    (hinfo : (iKeySet E s payload).1 = none)
    (hne : (iDerived E s payload).1 ≠ s.remotePeer) :
    ∀ V : secureSession NS Conn PubKey → NoiseHandshakePayload → Key32 → GoError,
      (runIKAsInitiator { E with verifyPayload := V } s ctx payload).1 =
        ((iRecvd E s payload).1.1,
          some ("runIK stage=1 initiator=true  check remote peer id err: expected "
            ++ fmtXPeerID E s.remotePeer ++ " got "
            ++ fmtXPeerID E (iDerived E s payload).1)) := by
  intro V
  obtain ⟨e1, e2, e3, e4, e5⟩ := initiator_checkpoints_verify_free E V s payload
  rw [runIKAsInitiator_eq, e1, e2, e3, e4, e5]
  simp [hkey, hsend, hrecv, hpay, hinfo, hne, fmtXPeerID]

/-- Witness of C3: peer `03` is dialed, the payload derives to `02`, and the
signature check accepts everything.  The sample `String()` of the two
identifiers is `03` and `02`, which `%x` prints as `3033` and `3032`. -/
theorem runIKAsInitiator_identity_mismatch_witness :
    (sampleEnv verifyAny).IDString [3] = "03" ∧ (sampleEnv verifyAny).IDString [2] = "02" ∧
    (runIKAsInitiator (sampleEnv verifyAny) (sampleSession true [0] [3] (keyOf 9) [[1, 2, 3]])
        background [5]).1 =
      (some [1, 2, 3],
        some "runIK stage=1 initiator=true  check remote peer id err: expected 3033 got 3032") :=
  ⟨by decide, by decide, runIKAsInitiator_identity_mismatch (sampleEnv verifyAny)
    (sampleSession true [0] [3] (keyOf 9) [[1, 2, 3]]) background [5]
    (by decide) (by decide) (by decide) (by decide) (by decide) (by decide) verifyAny⟩

/-! ## Which key the signature check receives -/

/-- C4. In an initiator run that reaches signature verification, the key handed
to `verifyPayload` is the one loaded from the static key cache for the dialed
peer: a failure of the check on that key is returned as the "verify payload"
error with the received bytes, a success on that key ends the run without
error, and replacing `verifyPayload` by any check that agrees with it on the
cached key (whatever it answers on other keys, the engine's among them) leaves
the result unchanged. -/
theorem runIKAsInitiator_verifies_cached_key (E : Env NS Conn PubKey)
    (s : secureSession NS Conn PubKey) (ctx : Context) (payload : Bytes)
    (hkey : s.noiseStaticKeyCache.Load s.remotePeer ≠ zeroKey)
    (hsend : (iSent E s payload).1 = none)
    (hrecv : (iRecvd E s payload).1.2.2 = none)
    (hpay : (iPayload E s payload).1 = none)
    (hinfo : (iKeySet E s payload).1 = none)
    (hid : (iDerived E s payload).1 = s.remotePeer)
    (hderr : (iDerived E s payload).2 = none) :
    (∀ e, E.verifyPayload (iKeySet E s payload).2 (iPayload E s payload).2
          (s.noiseStaticKeyCache.Load s.remotePeer) = some e →
        (runIKAsInitiator E s ctx payload).1 =
          ((iRecvd E s payload).1.1,
            some ("runIK stage=1 initiator=true verify payload err=" ++ e))) ∧
      (E.verifyPayload (iKeySet E s payload).2 (iPayload E s payload).2
          (s.noiseStaticKeyCache.Load s.remotePeer) = none →
        (runIKAsInitiator E s ctx payload).1 = ((iRecvd E s payload).1.1, none)) ∧
      (∀ V : secureSession NS Conn PubKey → NoiseHandshakePayload → Key32 → GoError,
        (∀ t n, V t n (s.noiseStaticKeyCache.Load s.remotePeer) =
            E.verifyPayload t n (s.noiseStaticKeyCache.Load s.remotePeer)) →
        runIKAsInitiator { E with verifyPayload := V } s ctx payload =
          runIKAsInitiator E s ctx payload) := by
  refine ⟨?_, ?_, ?_⟩
  · intro e he
    rw [runIKAsInitiator_eq]
    simp [hkey, hsend, hrecv, hpay, hinfo, hid, hderr, he]
  · intro he
    rw [runIKAsInitiator_eq]
    simp [hkey, hsend, hrecv, hpay, hinfo, hid, hderr, he]
  · intro V hV
    obtain ⟨e1, e2, e3, e4, e5⟩ := initiator_checkpoints_verify_free E V s payload
    rw [runIKAsInitiator_eq, runIKAsInitiator_eq E, e1, e2, e3, e4, e5]
    simp [hV, fmtXPeerID]

/-- Witness of C4: the cache holds key `09`, the engine reports key `07`, and
the payload is bound to the engine key only; the initiator rejects it. -/
theorem runIKAsInitiator_verifies_cached_key_witness :
    (sampleEnv (verifyOnly (keyOf 7))).RemoteKey 0 = keyOf 7 ∧
      (runIKAsInitiator (sampleEnv (verifyOnly (keyOf 7)))
        (sampleSession true [] [1] (keyOf 9) [[1, 2, 3]]) background [5]).1 =
      (some [1, 2, 3],
        some "runIK stage=1 initiator=true verify payload err=invalid signature") :=
  ⟨rfl, (runIKAsInitiator_verifies_cached_key (sampleEnv (verifyOnly (keyOf 7)))
    (sampleSession true [] [1] (keyOf 9) [[1, 2, 3]]) background [5]
    (by decide) (by decide) (by decide) (by decide) (by decide) (by decide) (by decide)).1
    "invalid signature" (by decide)⟩

/-- C5. In a responder run that reaches signature verification, the key handed
to `verifyPayload` is `s.ns.RemoteKey()` of the engine state left by the
stage-0 receive: a failure of the check on that key is returned as the "verify
payload" error together with the stage-0 raw bytes, and replacing
`verifyPayload` by any check that agrees with it on that key (whatever it
answers on the cache entry) leaves the result unchanged. -/
theorem runIKAsResponder_verifies_live_key (E : Env NS Conn PubKey)
    (s : secureSession NS Conn PubKey) (ctx : Context) (payload : Bytes)
    (hrecv : (rRecvd E s).1.2.2 = none)
    (hpay : (rPayload E s).1 = none)
    (hinfo : (rKeySet E s).1 = none)
    (hpeer : (rPeerSet E s).1 = none) :
    (∀ e, E.verifyPayload (rPeerSet E s).2 (rPayload E s).2
          (E.RemoteKey (rRecvd E s).2.ns) = some e →
        (runIKAsResponder E s ctx payload).1 =
          ((rRecvd E s).1.1, some ("runIK stage=0 initiator=false verify payload err=" ++ e))) ∧
      (∀ V : secureSession NS Conn PubKey → NoiseHandshakePayload → Key32 → GoError,
        (∀ t n, V t n (E.RemoteKey (rRecvd E s).2.ns) =
            E.verifyPayload t n (E.RemoteKey (rRecvd E s).2.ns)) →
        runIKAsResponder { E with verifyPayload := V } s ctx payload =
          runIKAsResponder E s ctx payload) := by
  have hns : (rPeerSet E s).2.ns = (rRecvd E s).2.ns := (rPeerSet_frame E s).2.2
  refine ⟨?_, ?_⟩
  · intro e he
    rw [runIKAsResponder_eq]
    simp [hrecv, hpay, hinfo, hpeer, hns, he]
  · intro V hV
    obtain ⟨e1, e2, e3, e4, e5⟩ := responder_checkpoints_verify_free E V s payload
    rw [runIKAsResponder_eq, runIKAsResponder_eq E, e1, e2, e3, e4, e5]
    have hR : Env.RemoteKey { E with verifyPayload := V } = E.RemoteKey := rfl
    simp [hR, hns, hV]

/-- Witness of C5: the engine reports key `07`, the cache holds key `09`, and
the payload is bound to the cached key only; the responder rejects it. -/
theorem runIKAsResponder_verifies_live_key_witness :
    (sampleSession false [] [1] (keyOf 9) [[1, 2, 3]]).noiseStaticKeyCache.Load [1] = keyOf 9 ∧
      (runIKAsResponder (sampleEnv (verifyOnly (keyOf 9)))
        (sampleSession false [] [1] (keyOf 9) [[1, 2, 3]]) background [5]).1 =
      (some [1, 2, 3],
        some "runIK stage=0 initiator=false verify payload err=invalid signature") :=
  ⟨rfl, (runIKAsResponder_verifies_live_key (sampleEnv (verifyOnly (keyOf 9)))
    (sampleSession false [] [1] (keyOf 9) [[1, 2, 3]]) background [5]
    (by decide) (by decide) (by decide) (by decide)).1 "invalid signature" (by decide)⟩

/-! ## Responder: ordering, adopted identity, result -/

/-- C6. The responder sends its stage-1 message only after the receive, the
unmarshal, `setRemotePeerInfo`, `setRemotePeerID` and `verifyPayload` all
succeeded: when they did, the run logs the receive and then the send of the
caller payload; when one of them failed, the run returns an error and logs the
receive only, so no send is added to the log. -/
theorem runIKAsResponder_send_only_after_checks (E : Env NS Conn PubKey)
    (s : secureSession NS Conn PubKey) (ctx : Context) (payload : Bytes) :
    (rChecksPass E s →
        (runIKAsResponder E s ctx payload).2.trace =
          s.trace ++ [.recv .IKDecode0 .IKRecvMessage,
            .send payload .IKEncode1 .IKSendMessage]) ∧
      (¬ rChecksPass E s →
        (runIKAsResponder E s ctx payload).1.2 ≠ none ∧
        (runIKAsResponder E s ctx payload).2.trace =
          s.trace ++ [.recv .IKDecode0 .IKRecvMessage] ∧
        (runIKAsResponder E s ctx payload).2.trace.filter NetEvent.isSend =
          s.trace.filter NetEvent.isSend) := by
  have hr := rRecvd_frame E s
  obtain ⟨hk, hp, -⟩ := rPeerSet_frame E s
  have hs := (rSent_frame E s payload).1
  rw [hr] at hk hp
  unfold rChecksPass
  rw [runIKAsResponder_eq]
  refine ⟨?_, ?_⟩
  · rintro ⟨h1, h2, h3, h4, h5⟩
    simp only [h1, h2, h3, h4, h5]
    split <;> simp [hs]
  · intro hno
    split
    · simp [hr, NetEvent.isSend]
    · split
      · simp [hr, NetEvent.isSend]
      · split
        · simp [hk, NetEvent.isSend]
        · split
          · simp [hp, NetEvent.isSend]
          · split
            · simp [hp, NetEvent.isSend]
            · simp_all

/-- Witness of C6: a responder whose inbound message does not unmarshal
returns an error and logs the receive only; the same responder with a good
message logs the receive and then the send. -/
theorem runIKAsResponder_send_only_after_checks_witness :
    (runIKAsResponder (sampleEnv verifyAny) (sampleSession false [] [] zeroKey [[]])
        background [5]).2.trace = [.recv .IKDecode0 .IKRecvMessage] ∧
      (runIKAsResponder (sampleEnv verifyAny) (sampleSession false [] [] zeroKey [[1, 2, 3]])
        background [5]).2.trace =
        [.recv .IKDecode0 .IKRecvMessage, .send [5] .IKEncode1 .IKSendMessage] :=
  ⟨((runIKAsResponder_send_only_after_checks (sampleEnv verifyAny)
      (sampleSession false [] [] zeroKey [[]]) background [5]).2 (by
        unfold rChecksPass; decide)).2.1,
    (runIKAsResponder_send_only_after_checks (sampleEnv verifyAny)
      (sampleSession false [] [] zeroKey [[1, 2, 3]]) background [5]).1 (by
        unfold rChecksPass; decide)⟩

/-- C7. After a responder run that returns a nil error, the remote peer
identifier of the session is the one `peer.IDFromPublicKey` derives from the
public key that `setRemotePeerInfo` installed from the identity key of the
received payload; the identifier the session held before the call plays no
part: starting from any other identifier gives the same returned values and,
on success, the same adopted identifier. -/
theorem runIKAsResponder_adopts_derived_peer (E : Env NS Conn PubKey)
    (s : secureSession NS Conn PubKey) (ctx : Context) (payload : Bytes)
    (hok : (runIKAsResponder E s ctx payload).1.2 = none) :
    (runIKAsResponder E s ctx payload).2.remotePeer =
        (E.IDFromPublicKey (RemotePublicKey (rKeySet E s).2)).1 ∧
      RemotePublicKey (rKeySet E s).2 =
        (E.UnmarshalPublicKey (rPayload E s).2.GetIdentityKey).1 ∧
      ∀ p : PeerID,
        (runIKAsResponder E { s with remotePeer := p } ctx payload).1 =
            (runIKAsResponder E s ctx payload).1 ∧
          (runIKAsResponder E { s with remotePeer := p } ctx payload).2.remotePeer =
            (E.IDFromPublicKey (RemotePublicKey (rKeySet E s).2)).1 := by
  have key : ∀ t : secureSession NS Conn PubKey,
      (runIKAsResponder E t ctx payload).1.2 = none →
      (runIKAsResponder E t ctx payload).2.remotePeer =
        (E.IDFromPublicKey (RemotePublicKey (rKeySet E t).2)).1 := by
    intro t ht
    have hs := (rSent_frame E t payload).2
    rw [runIKAsResponder_eq] at ht ⊢
    split at ht <;> try simp at ht
    split at ht <;> try simp at ht
    split at ht <;> try simp at ht
    split at ht <;> try simp at ht
    split at ht <;> try simp at ht
    split at ht <;> try simp at ht
    simp_all [rPeerSet, setRemotePeerID]
  have hsame : ∀ p : PeerID,
      rRecvd E { s with remotePeer := p } = ((rRecvd E s).1, { (rRecvd E s).2 with remotePeer := p })
      := by
    intro p
    simp [rRecvd, ikRecvHandshakeMessage]
  refine ⟨key s hok, rfl, ?_⟩
  intro p
  have h1 : (rRecvd E { s with remotePeer := p }).1 = (rRecvd E s).1 := by rw [hsame]
  have h2 : rPayload E { s with remotePeer := p } = rPayload E s := by
    simp [rPayload, h1]
  have h3 : (rKeySet E { s with remotePeer := p }).1 = (rKeySet E s).1 := by
    simp [rKeySet, setRemotePeerInfo, h2]
  have h3k : RemotePublicKey (rKeySet E { s with remotePeer := p }).2 =
      RemotePublicKey (rKeySet E s).2 := by
    simp [rKeySet, setRemotePeerInfo, RemotePublicKey, h2]
  have h4 : rPeerSet E { s with remotePeer := p } = rPeerSet E s := by
    simp [rPeerSet, setRemotePeerID, rKeySet, setRemotePeerInfo, rPayload, rRecvd,
      ikRecvHandshakeMessage, RemotePublicKey]
  have h5 : rSent E { s with remotePeer := p } payload = rSent E s payload := by
    simp [rSent, h4]
  have hres : (runIKAsResponder E { s with remotePeer := p } ctx payload).1 =
      (runIKAsResponder E s ctx payload).1 := by
    rw [runIKAsResponder_eq, runIKAsResponder_eq E s, h1, h2, h3, h4, h5]
    split
    · rfl
    · split
      · rfl
      · split
        · rfl
        · rfl
  refine ⟨hres, ?_⟩
  rw [key _ (by rw [hres]; exact hok), h3k]

/-- Witness of C7: the session starts with identifier `09` and ends with `01`,
the identifier of the identity key in the received payload. -/
theorem runIKAsResponder_adopts_derived_peer_witness :
    (sampleSession false [] [9] (keyOf 9) [[1, 2, 3]]).remotePeer = [9] ∧
      (runIKAsResponder (sampleEnv verifyAny) (sampleSession false [] [9] (keyOf 9) [[1, 2, 3]])
        background [5]).2.remotePeer = [1] :=
  ⟨rfl, (runIKAsResponder_adopts_derived_peer (sampleEnv verifyAny)
    (sampleSession false [] [9] (keyOf 9) [[1, 2, 3]]) background [5] (by decide)).1⟩

/-- C8. When every step of the responder succeeds (receive, unmarshal,
`setRemotePeerInfo`, `setRemotePeerID`, `verifyPayload`, stage-1 send),
`runIKAsResponder` returns the raw bytes `buf` of the received stage-0 message
and a nil error. -/
theorem runIKAsResponder_success_returns_buf (E : Env NS Conn PubKey)
    (s : secureSession NS Conn PubKey) (ctx : Context) (payload : Bytes)
    (hchecks : rChecksPass E s) (hsend : (rSent E s payload).1 = none) :
    (runIKAsResponder E s ctx payload).1 = ((rRecvd E s).1.1, none) := by
  obtain ⟨h1, h2, h3, h4, h5⟩ := hchecks
  rw [runIKAsResponder_eq]
  simp [h1, h2, h3, h4, h5, hsend]

/-- Witness of C8: the sample responder receives `01 02 03` and returns it. -/
theorem runIKAsResponder_success_returns_buf_witness :
    (runIKAsResponder (sampleEnv verifyAny) (sampleSession false [] [] zeroKey [[1, 2, 3]])
        background [5]).1 = (some [1, 2, 3], none) :=
  runIKAsResponder_success_returns_buf (sampleEnv verifyAny)
    (sampleSession false [] [] zeroKey [[1, 2, 3]]) background [5]
    (by unfold rChecksPass; decide) (by decide)

/-! ## What a run returns -/

/-- The dispatch of `runIK` on the role, over the freshly initialised engine. -/
theorem runIK_eq (E : Env NS Conn PubKey) (s : secureSession NS Conn PubKey)
    (ctx : Context) (payload : Bytes) :
    runIK E s ctx payload =
      if s.initiator then runIKAsInitiator E (started E s) ctx payload
      else runIKAsResponder E (started E s) ctx payload := rfl

/-- C9, as stated, fails.  Two successful initiator runs over the same wire
message `01 01 02`, whose stage-1 plaintexts are `01 01 02` and `01 02`, return
the same value `(01 01 02, nil)`: the returned value is the raw message, it
differs from the plaintext in the second run, and no function of the returned
value yields the plaintext of every successful run. -/
theorem runIKAsInitiator_result_lacks_plaintext :
    (runIKAsInitiator (sampleEnv verifyAny) (sampleSession true [0] [1] (keyOf 9) [[1, 1, 2]])
        background [5]).1 = (some [1, 1, 2], none) ∧
      (iRecvd (sampleEnv verifyAny) (sampleSession true [0] [1] (keyOf 9) [[1, 1, 2]])
        [5]).1.2.1 = [1, 2] ∧
      (runIK (sampleEnv verifyAny) (sampleSession true [0] [1] (keyOf 9) [[1, 1, 2]])
        background [5]).1 = (some [1, 1, 2], none) ∧
      ¬ ∃ extract : Option Bytes × GoError → Bytes,
        ∀ s : secureSession Nat (List Bytes) Bytes,
          (runIKAsInitiator (sampleEnv verifyAny) s background [5]).1.2 = none →
          extract (runIKAsInitiator (sampleEnv verifyAny) s background [5]).1 =
            (iRecvd (sampleEnv verifyAny) s [5]).1.2.1 := by
  refine ⟨by decide, by decide, by decide, ?_⟩
  rintro ⟨extract, h⟩
  have ha := h (sampleSession true [] [1] (keyOf 9) [[1, 1, 2]]) (by decide)
  have hb := h (sampleSession true [0] [1] (keyOf 9) [[1, 1, 2]]) (by decide)
  have ra : (runIKAsInitiator (sampleEnv verifyAny)
      (sampleSession true [] [1] (keyOf 9) [[1, 1, 2]]) background [5]).1 =
      (some [1, 1, 2], none) := by decide
  have rb : (runIKAsInitiator (sampleEnv verifyAny)
      (sampleSession true [0] [1] (keyOf 9) [[1, 1, 2]]) background [5]).1 =
      (some [1, 1, 2], none) := by decide
  have pa : (iRecvd (sampleEnv verifyAny)
      (sampleSession true [] [1] (keyOf 9) [[1, 1, 2]]) [5]).1.2.1 = [1, 1, 2] := by decide
  have pb : (iRecvd (sampleEnv verifyAny)
      (sampleSession true [0] [1] (keyOf 9) [[1, 1, 2]]) [5]).1.2.1 = [1, 2] := by decide
  rw [ra, pa] at ha
  rw [rb, pb] at hb
  rw [ha] at hb
  exact absurd hb (by decide)

/-- C9, amended.  A successful initiator run returns the raw bytes `buf` of the
received stage-1 message and a nil error, from `runIKAsInitiator` and, for an
initiator session, from `runIK` (whose walk starts on the freshly initialised
engine). -/
theorem runIKAsInitiator_success_returns_raw_bytes (E : Env NS Conn PubKey)
    (s : secureSession NS Conn PubKey) (ctx : Context) (payload : Bytes) :
    ((runIKAsInitiator E s ctx payload).1.2 = none →
        (runIKAsInitiator E s ctx payload).1 = ((iRecvd E s payload).1.1, none)) ∧
      (s.initiator = true → (runIK E s ctx payload).1.2 = none →
        (runIK E s ctx payload).1 = ((iRecvd E (started E s) payload).1.1, none)) := by
  have key : ∀ t : secureSession NS Conn PubKey,
      (runIKAsInitiator E t ctx payload).1.2 = none →
      (runIKAsInitiator E t ctx payload).1 = ((iRecvd E t payload).1.1, none) := by
    intro t ht
    rw [runIKAsInitiator_eq] at ht ⊢
    split at ht
    · simp at ht
    · rw [if_neg (by assumption)]
      split at ht <;> try simp at ht
      split at ht <;> try simp at ht
      split at ht <;> try simp at ht
      split at ht <;> try simp at ht
      split at ht <;> try simp at ht
      split at ht <;> try simp at ht
      split at ht <;> try simp at ht
      simp_all
  refine ⟨key s, ?_⟩
  intro hi hok
  rw [runIK_eq, if_pos hi] at hok ⊢
  exact key _ hok

/-- Witness of C9, amended: the sample initiator returns the wire message
`01 01 02`, from `runIKAsInitiator` and from `runIK`. -/
theorem runIKAsInitiator_success_returns_raw_bytes_witness :
    (runIKAsInitiator (sampleEnv verifyAny) (sampleSession true [0] [1] (keyOf 9) [[1, 1, 2]])
        background [5]).1 = (some [1, 1, 2], none) ∧
      (runIK (sampleEnv verifyAny) (sampleSession true [0] [1] (keyOf 9) [[1, 1, 2]])
        background [5]).1 = (some [1, 1, 2], none) :=
  ⟨(runIKAsInitiator_success_returns_raw_bytes (sampleEnv verifyAny)
      (sampleSession true [0] [1] (keyOf 9) [[1, 1, 2]]) background [5]).1 (by decide),
    (runIKAsInitiator_success_returns_raw_bytes (sampleEnv verifyAny)
      (sampleSession true [0] [1] (keyOf 9) [[1, 1, 2]]) background [5]).2 rfl (by decide)⟩

/-! ## What a failed run returns -/

/-- An initiator run that fails after its stage-1 receive succeeded returns
the raw bytes of the received message. -/
theorem runIKAsInitiator_failure_carries_buf (E : Env NS Conn PubKey)
    (s : secureSession NS Conn PubKey) (ctx : Context) (payload : Bytes)
    (hkey : s.noiseStaticKeyCache.Load s.remotePeer ≠ zeroKey)
    (hsend : (iSent E s payload).1 = none)
    (hrecv : (iRecvd E s payload).1.2.2 = none) :
    (runIKAsInitiator E s ctx payload).1.1 = (iRecvd E s payload).1.1 := by
  rw [runIKAsInitiator_eq]
  simp only [hkey, hsend, hrecv, if_false]
  split
  · rfl
  · split
    · rfl
    · split
      · rfl
      · split
        · rfl
        · split <;> rfl

/-- A responder run that fails at a check made after its stage-0 receive
succeeded returns the raw bytes of the received message. -/
theorem runIKAsResponder_check_failure_carries_buf (E : Env NS Conn PubKey)
    (s : secureSession NS Conn PubKey) (ctx : Context) (payload : Bytes)
    (hfail : ¬ rChecksPass E s) :
    (runIKAsResponder E s ctx payload).1.1 = (rRecvd E s).1.1 := by
  unfold rChecksPass at hfail
  rw [runIKAsResponder_eq]
  split
  · rfl
  · split
    · rfl
    · split
      · rfl
      · split
        · rfl
        · split
          · rfl
          · simp_all

/-- A responder run whose checks pass and whose stage-1 send fails returns nil
bytes, whatever was received at stage 0. -/
theorem runIKAsResponder_send_failure_returns_nil (E : Env NS Conn PubKey)
    (s : secureSession NS Conn PubKey) (ctx : Context) (payload : Bytes)
    (hchecks : rChecksPass E s) (e : String) (hsend : (rSent E s payload).1 = some e) :
    (runIKAsResponder E s ctx payload).1 =
      (none, some ("runIK stage=1 initiator=false send err=" ++ e)) := by
  obtain ⟨h1, h2, h3, h4, h5⟩ := hchecks
  rw [runIKAsResponder_eq]
  simp [h1, h2, h3, h4, h5, hsend]

/-- C10, at the failing input.  The responder receives the stage-0 message
`01 02 03` successfully, every check passes, and the stage-1 send fails: both
`runIKAsResponder` and `runIK` return nil bytes with the send error, not the
raw bytes `01 02 03` of the last message received. -/
theorem runIK_responder_send_failure_drops_buf :
    (rRecvd (sampleEnv verifyAny) (sampleSession false [] [] zeroKey [[1, 2, 3]])).1 =
        (some [1, 2, 3], [1, 2, 3], none) ∧
      rChecksPass (sampleEnv verifyAny) (sampleSession false [] [] zeroKey [[1, 2, 3]]) ∧
      (runIKAsResponder (sampleEnv verifyAny) (sampleSession false [] [] zeroKey [[1, 2, 3]])
        background []).1 = (none, some "runIK stage=1 initiator=false send err=short write") ∧
      (runIK (sampleEnv verifyAny) (sampleSession false [] [] zeroKey [[1, 2, 3]])
        background []).1 = (none, some "runIK stage=1 initiator=false send err=short write") ∧
      (runIK (sampleEnv verifyAny) (sampleSession false [] [] zeroKey [[1, 2, 3]])
        background []).1.1 ≠
        (rRecvd (sampleEnv verifyAny) (sampleSession false [] [] zeroKey [[1, 2, 3]])).1.1 := by
  refine ⟨by decide, by unfold rChecksPass; decide, by decide, by decide, by decide⟩

/-! ## The context -/

/-- C11, as stated, fails.  With a context that is already cancelled, the
sample initiator and the sample responder, whose collaborator steps all
succeed, return the received bytes and a nil error from `runIK`. -/
theorem runIK_cancelled_context_succeeds :
    cancelled.Err ≠ none ∧
      (runIK (sampleEnv verifyAny) (sampleSession true [] [1] (keyOf 9) [[1, 2, 3]])
        cancelled [5]).1 = (some [1, 2, 3], none) ∧
      (runIK (sampleEnv verifyAny) (sampleSession false [] [1] (keyOf 9) [[1, 2, 3]])
        cancelled [5]).1 = (some [1, 2, 3], none) := by
  refine ⟨by decide, by decide, by decide⟩

/-- C11, amended.  `runIK` and the two role walks never consult the context: a
call with any context, cancelled or expired ones included, returns the values
and leaves the session that the same call returns and leaves with any other
context. -/
theorem runIK_context_irrelevant (E : Env NS Conn PubKey) (s : secureSession NS Conn PubKey)
    (ctx ctx2 : Context) (payload : Bytes) :
    runIK E s ctx payload = runIK E s ctx2 payload ∧
      runIKAsInitiator E s ctx payload = runIKAsInitiator E s ctx2 payload ∧
      runIKAsResponder E s ctx payload = runIKAsResponder E s ctx2 payload := by
  have hi : ∀ t : secureSession NS Conn PubKey,
      runIKAsInitiator E t ctx payload = runIKAsInitiator E t ctx2 payload := by
    intro t
    rw [runIKAsInitiator_eq, runIKAsInitiator_eq E t ctx2]
  have hr : ∀ t : secureSession NS Conn PubKey,
      runIKAsResponder E t ctx payload = runIKAsResponder E t ctx2 payload := by
    intro t
    rw [runIKAsResponder_eq, runIKAsResponder_eq E t ctx2]
  refine ⟨?_, hi s, hr s⟩
  rw [runIK_eq, runIK_eq E s ctx2, hi, hr]

/-! ## Stage and role tags of the errors -/

/-- A text that opens a message opens every extension of the message. -/
theorem startsWith_append (L x P : String) (h : startsWith L P) : startsWith (L ++ x) P := by
  unfold startsWith at *
  rw [String.data_append]
  exact h.trans (List.prefix_append _ _)

/-- A text contained in a message is contained in every extension of it. -/
theorem containsText_append (L x t : String) (h : containsText L t) :
    containsText (L ++ x) t := by
  unfold containsText at *
  rw [String.data_append]
  exact h.trans (List.prefix_append _ _).isInfix

/-- Wrapper and tags survive the appending of a cause. -/
theorem wrapped_tagged_append (b : Bool) (L x : String) (h : wrapped b L ∧ tagged b L) :
    wrapped b (L ++ x) ∧ tagged b (L ++ x) := by
  obtain ⟨hw, ht1, ht2⟩ := h
  refine ⟨?_, ?_, containsText_append _ _ _ ht2⟩
  · cases b
    · exact hw.imp (startsWith_append _ _ _) (startsWith_append _ _ _)
    · exact hw.imp (startsWith_append _ _ _) (startsWith_append _ _ _)
  · exact ht1.imp (containsText_append _ _ _) (containsText_append _ _ _)

/-- C12, as stated, fails.  The sample initiator with an all-zero cache entry
returns the error `runIK aborting - unknown static key for peer 01`, which
contains neither `stage=0` nor `stage=1` nor `initiator=true`. -/
theorem runIKAsInitiator_unknown_key_error_untagged :
    (runIKAsInitiator (sampleEnv verifyAny) (sampleSession true [] [1] zeroKey [[1, 2, 3]])
        background [5]).1.2 = some "runIK aborting - unknown static key for peer 01" ∧
      ¬ containsText "runIK aborting - unknown static key for peer 01" "stage=0" ∧
      ¬ containsText "runIK aborting - unknown static key for peer 01" "stage=1" ∧
      ¬ containsText "runIK aborting - unknown static key for peer 01" "initiator=true" ∧
      ¬ tagged true "runIK aborting - unknown static key for peer 01" := by
  refine ⟨by decide, by decide, by decide, by decide, by decide⟩

set_option maxRecDepth 8000 in
/-- C12, amended.  Every non-nil error of `runIKAsResponder`, and every non-nil
error of `runIKAsInitiator` on a session whose cached key is not all-zero,
opens with `runIK stage=0` or `runIK stage=1` followed by the role
(`initiator=true` for the initiator, `initiator=false` for the responder), so
it contains a stage tag and the role tag.  On an all-zero cached key the
initiator returns `runIK aborting - unknown static key for peer` followed by
the pretty-printed identifier, a message with no wrapper of its own. -/
theorem runIK_errors_tagged (E : Env NS Conn PubKey) (s : secureSession NS Conn PubKey)
    (ctx : Context) (payload : Bytes) :
    (∀ e, s.noiseStaticKeyCache.Load s.remotePeer ≠ zeroKey →
        (runIKAsInitiator E s ctx payload).1.2 = some e → wrapped true e ∧ tagged true e) ∧
      (∀ e, (runIKAsResponder E s ctx payload).1.2 = some e →
        wrapped false e ∧ tagged false e) ∧
      (s.noiseStaticKeyCache.Load s.remotePeer = zeroKey →
        (runIKAsInitiator E s ctx payload).1.2 =
          some ("runIK aborting - unknown static key for peer " ++ E.Pretty s.remotePeer)) := by
  refine ⟨?_, ?_, ?_⟩
  · intro e hk he
    rw [runIKAsInitiator_eq, if_neg hk] at he
    repeat' split at he
    all_goals
      simp only [Option.some.injEq, reduceCtorEq] at he
    all_goals
      subst he
      first
        | exact (by decide)
        | exact wrapped_tagged_append _ _ _ (by decide)
        | exact wrapped_tagged_append _ _ _ (wrapped_tagged_append _ _ _
            (wrapped_tagged_append _ _ _ (by decide)))
  · intro e he
    rw [runIKAsResponder_eq] at he
    repeat' split at he
    all_goals
      simp only [Option.some.injEq, reduceCtorEq] at he
    all_goals
      subst he
      first
        | exact (by decide)
        | exact wrapped_tagged_append _ _ _ (by decide)
        | exact wrapped_tagged_append _ _ _ (wrapped_tagged_append _ _ _ (by decide))
  · intro hz
    rw [runIKAsInitiator_eq, if_pos hz]

set_option maxRecDepth 8000 in
/-- Witness of C12, amended: the identity-mismatch error of the sample
initiator and the send error of the sample responder carry wrapper and tags. -/
theorem runIK_errors_tagged_witness :
    (wrapped true "runIK stage=1 initiator=true  check remote peer id err: expected 3033 got 3032" ∧
        tagged true
          "runIK stage=1 initiator=true  check remote peer id err: expected 3033 got 3032") ∧
      (wrapped false "runIK stage=1 initiator=false send err=short write" ∧
        tagged false "runIK stage=1 initiator=false send err=short write") :=
  ⟨(runIK_errors_tagged (sampleEnv verifyAny)
      (sampleSession true [0] [3] (keyOf 9) [[1, 2, 3]]) background [5]).1 _
      (by decide) (by decide),
    (runIK_errors_tagged (sampleEnv verifyAny)
      (sampleSession false [] [] zeroKey [[1, 2, 3]]) background []).2.1 _ (by decide)⟩

/-! ## Stage dispatch -/

/-- C13. `ikSendHandshakeMessage(p, true)` sends `p` with `IKEncode0` and
`ikSendHandshakeMessage(p, false)` with `IKEncode1`;
`ikRecvHandshakeMessage(true)` decodes with `IKDecode0` and
`ikRecvHandshakeMessage(false)` with `IKDecode1`, each returning what the
transport helper returns and logging that one call.  A successful initiator
run logs the stage-0 send of the caller payload and then the stage-1 receive;
a successful responder run logs the stage-0 receive and then the stage-1 send
of the caller payload; on a session with an empty log these are the whole
log. -/
theorem ik_stage_dispatch (E : Env NS Conn PubKey) (s : secureSession NS Conn PubKey)
    (ctx : Context) (payload : Bytes) :
    ((ikSendHandshakeMessage E s payload true).1 =
          (E.sendHandshakeMessage s.ns s.conn payload .IKEncode0 .IKSendMessage).1 ∧
        (ikSendHandshakeMessage E s payload true).2.trace =
          s.trace ++ [.send payload .IKEncode0 .IKSendMessage]) ∧
      ((ikSendHandshakeMessage E s payload false).1 =
          (E.sendHandshakeMessage s.ns s.conn payload .IKEncode1 .IKSendMessage).1 ∧
        (ikSendHandshakeMessage E s payload false).2.trace =
          s.trace ++ [.send payload .IKEncode1 .IKSendMessage]) ∧
      ((ikRecvHandshakeMessage E s true).1 =
          (E.recvHandshakeMessage s.ns s.conn .IKDecode0 .IKRecvMessage).1 ∧
        (ikRecvHandshakeMessage E s true).2.trace =
          s.trace ++ [.recv .IKDecode0 .IKRecvMessage]) ∧
      ((ikRecvHandshakeMessage E s false).1 =
          (E.recvHandshakeMessage s.ns s.conn .IKDecode1 .IKRecvMessage).1 ∧
        (ikRecvHandshakeMessage E s false).2.trace =
          s.trace ++ [.recv .IKDecode1 .IKRecvMessage]) ∧
      ((runIKAsInitiator E s ctx payload).1.2 = none →
        (runIKAsInitiator E s ctx payload).2.trace =
          s.trace ++ [.send payload .IKEncode0 .IKSendMessage,
            .recv .IKDecode1 .IKRecvMessage]) ∧
      ((runIKAsResponder E s ctx payload).1.2 = none →
        (runIKAsResponder E s ctx payload).2.trace =
          s.trace ++ [.recv .IKDecode0 .IKRecvMessage,
            .send payload .IKEncode1 .IKSendMessage]) ∧
      (s.trace = [] → (runIKAsInitiator E s ctx payload).1.2 = none →
        (runIKAsInitiator E s ctx payload).2.trace =
          [.send payload .IKEncode0 .IKSendMessage, .recv .IKDecode1 .IKRecvMessage]) ∧
      (s.trace = [] → (runIKAsResponder E s ctx payload).1.2 = none →
        (runIKAsResponder E s ctx payload).2.trace =
          [.recv .IKDecode0 .IKRecvMessage, .send payload .IKEncode1 .IKSendMessage]) := by
  have hi : (runIKAsInitiator E s ctx payload).1.2 = none →
      (runIKAsInitiator E s ctx payload).2.trace =
        s.trace ++ [.send payload .IKEncode0 .IKSendMessage,
          .recv .IKDecode1 .IKRecvMessage] := by
    intro h
    have hk := (iKeySet_frame E s payload).1
    rw [(iRecvd_frame E s payload).1] at hk
    rw [runIKAsInitiator_eq] at h ⊢
    repeat' split at h
    all_goals first
      | (simp only [reduceCtorEq] at h; done)
      | simp_all
  have hr : (runIKAsResponder E s ctx payload).1.2 = none →
      (runIKAsResponder E s ctx payload).2.trace =
        s.trace ++ [.recv .IKDecode0 .IKRecvMessage,
          .send payload .IKEncode1 .IKSendMessage] := by
    intro h
    have hs := (rSent_frame E s payload).1
    rw [runIKAsResponder_eq] at h ⊢
    repeat' split at h
    all_goals first
      | (simp only [reduceCtorEq] at h; done)
      | simp_all
  refine ⟨by simp [ikSendHandshakeMessage], by simp [ikSendHandshakeMessage],
    by simp [ikRecvHandshakeMessage], by simp [ikRecvHandshakeMessage], hi, hr, ?_, ?_⟩
  · intro h0 h
    rw [hi h, h0, List.nil_append]
  · intro h0 h
    rw [hr h, h0, List.nil_append]

/-- Witness of C13: the logs of the successful sample initiator and sample
responder, started on an empty log. -/
theorem ik_stage_dispatch_witness :
    (runIKAsInitiator (sampleEnv verifyAny) (sampleSession true [] [1] (keyOf 9) [[1, 2, 3]])
        background [5]).2.trace =
        [.send [5] .IKEncode0 .IKSendMessage, .recv .IKDecode1 .IKRecvMessage] ∧
      (runIKAsResponder (sampleEnv verifyAny) (sampleSession false [] [] zeroKey [[1, 2, 3]])
        background [5]).2.trace =
        [.recv .IKDecode0 .IKRecvMessage, .send [5] .IKEncode1 .IKSendMessage] :=
  ⟨(ik_stage_dispatch (sampleEnv verifyAny)
      (sampleSession true [] [1] (keyOf 9) [[1, 2, 3]]) background [5]).2.2.2.2.2.2.1
      rfl (by decide),
    (ik_stage_dispatch (sampleEnv verifyAny)
      (sampleSession false [] [] zeroKey [[1, 2, 3]]) background [5]).2.2.2.2.2.2.2
      rfl (by decide)⟩

/-! ## Initiator: failure of the stage-0 send -/

/-- C14. When the cached key is non-zero and the stage-0 send fails with cause
`e`, `runIKAsInitiator` returns nil bytes and the error
`runIK stage=0 initiator=true err=e`; the run logs the send only (no receive),
leaves the remote public key and the remote identifier of the session as they
were, and its result is the same for every set of collaborators with the same
transport send, whatever their receive, unmarshal, identity and signature
functions answer. -/
theorem runIKAsInitiator_stage0_send_failure (E : Env NS Conn PubKey)
    (s : secureSession NS Conn PubKey) (ctx : Context) (payload : Bytes) (e : String)
    (hkey : s.noiseStaticKeyCache.Load s.remotePeer ≠ zeroKey)
    (hsend : (iSent E s payload).1 = some e) :
    (runIKAsInitiator E s ctx payload).1 =
        (none, some ("runIK stage=0 initiator=true err=" ++ e)) ∧
      startsWith ("runIK stage=0 initiator=true err=" ++ e) "runIK stage=0 initiator=true" ∧
      (runIKAsInitiator E s ctx payload).2.trace =
        s.trace ++ [.send payload .IKEncode0 .IKSendMessage] ∧
      (runIKAsInitiator E s ctx payload).2.trace.filter NetEvent.isRecv =
        s.trace.filter NetEvent.isRecv ∧
      (runIKAsInitiator E s ctx payload).2.remoteKey = s.remoteKey ∧
      (runIKAsInitiator E s ctx payload).2.remotePeer = s.remotePeer ∧
      ∀ E2 : Env NS Conn PubKey, E2.sendHandshakeMessage = E.sendHandshakeMessage →
        runIKAsInitiator E2 s ctx payload = runIKAsInitiator E s ctx payload := by
  have hrun : runIKAsInitiator E s ctx payload =
      ((none, some ("runIK stage=0 initiator=true err=" ++ e)), (iSent E s payload).2) := by
    rw [runIKAsInitiator_eq, if_neg hkey]
    simp [hsend]
  obtain ⟨htr, hpeer⟩ := iSent_frame E s payload
  refine ⟨by rw [hrun], startsWith_append _ _ _ (by decide), by rw [hrun]; exact htr, ?_,
    ?_, by rw [hrun]; exact hpeer, ?_⟩
  · rw [hrun]
    simp [htr, NetEvent.isRecv]
  · rw [hrun]
    simp [iSent, ikSendHandshakeMessage]
  · intro E2 h2
    have hs : iSent E2 s payload = iSent E s payload := by
      simp [iSent, ikSendHandshakeMessage, h2]
    rw [hrun, runIKAsInitiator_eq, if_neg hkey, hs]
    simp [hsend]

/-- Witness of C14: the sample initiator with the empty payload, whose send
fails with `short write`. -/
theorem runIKAsInitiator_stage0_send_failure_witness :
    (runIKAsInitiator (sampleEnv verifyAny) (sampleSession true [] [1] (keyOf 9) [[1, 2, 3]])
        background []).1 = (none, some "runIK stage=0 initiator=true err=short write") ∧
      (runIKAsInitiator (sampleEnv verifyAny) (sampleSession true [] [1] (keyOf 9) [[1, 2, 3]])
        background []).2.trace = [.send [] .IKEncode0 .IKSendMessage] :=
  have h := runIKAsInitiator_stage0_send_failure (sampleEnv verifyAny)
    (sampleSession true [] [1] (keyOf 9) [[1, 2, 3]]) background [] "short write"
    (by decide) (by decide)
  ⟨h.1, h.2.2.1⟩

/-! ## Initiator: the identifier check -/

/-- C16. In an initiator run that reaches the identifier check, an identifier
from `peer.IDFromPublicKey` that differs from `s.remotePeer` gives the
`expected ... got ...` mismatch error (the two identifiers printed by `%x` as
the hexadecimal of their `String()` texts), whether or not
`peer.IDFromPublicKey` also returned an error; the derivation error is
reported when the identifier
equals `s.remotePeer`; and a run that returns a nil error had a nil derivation
error. -/
theorem runIKAsInitiator_peer_check_precedence (E : Env NS Conn PubKey)
    (s : secureSession NS Conn PubKey) (ctx : Context) (payload : Bytes)
    (hkey : s.noiseStaticKeyCache.Load s.remotePeer ≠ zeroKey)
    (hsend : (iSent E s payload).1 = none)
    (hrecv : (iRecvd E s payload).1.2.2 = none)
    (hpay : (iPayload E s payload).1 = none)
    (hinfo : (iKeySet E s payload).1 = none) :
    ((iDerived E s payload).1 ≠ s.remotePeer →
        (runIKAsInitiator E s ctx payload).1 =
          ((iRecvd E s payload).1.1,
            some ("runIK stage=1 initiator=true  check remote peer id err: expected "
              ++ fmtXPeerID E s.remotePeer ++ " got "
              ++ fmtXPeerID E (iDerived E s payload).1))) ∧
      (∀ e, (iDerived E s payload).1 = s.remotePeer → (iDerived E s payload).2 = some e →
        (runIKAsInitiator E s ctx payload).1 =
          ((iRecvd E s payload).1.1,
            some ("runIK stage=1 initiator=true  check remote peer id err " ++ e))) ∧
      ((iDerived E s payload).2 ≠ none → (runIKAsInitiator E s ctx payload).1.2 ≠ none) := by
  rw [runIKAsInitiator_eq, if_neg hkey]
  simp only [hsend, hrecv, hpay, hinfo]
  refine ⟨?_, ?_, ?_⟩
  · intro hne
    rw [if_pos hne]
  · intro e hid he
    rw [if_neg (not_not.mpr hid)]
    simp [he]
  · intro hne
    by_cases hid : (iDerived E s payload).1 = s.remotePeer
    · rw [if_neg (not_not.mpr hid)]
      rcases hd : (iDerived E s payload).2 with _ | e
      · exact absurd hd hne
      · simp
    · rw [if_pos hid]
      simp

/-- Witness of C16: `peer.IDFromPublicKey` returns identifier `01` and the
error `bad key`; dialing `04` gives the mismatch error, dialing `01` gives the
derivation error.  The sample `String()` of the identifiers `04` and `01` is
`04` and `01`, which `%x` prints as `3034` and `3031`. -/
theorem runIKAsInitiator_peer_check_precedence_witness :
    (runIKAsInitiator sampleEnvBadID (sampleSession true [] [4] (keyOf 9) [[1, 2, 3]])
        background [5]).1 =
        (some [1, 2, 3],
          some "runIK stage=1 initiator=true  check remote peer id err: expected 3034 got 3031") ∧
      (runIKAsInitiator sampleEnvBadID (sampleSession true [] [1] (keyOf 9) [[1, 2, 3]])
        background [5]).1 =
        (some [1, 2, 3],
          some "runIK stage=1 initiator=true  check remote peer id err bad key") :=
  ⟨(runIKAsInitiator_peer_check_precedence sampleEnvBadID
      (sampleSession true [] [4] (keyOf 9) [[1, 2, 3]]) background [5]
      (by decide) (by decide) (by decide) (by decide) (by decide)).1 (by decide),
    (runIKAsInitiator_peer_check_precedence sampleEnvBadID
      (sampleSession true [] [1] (keyOf 9) [[1, 2, 3]]) background [5]
      (by decide) (by decide) (by decide) (by decide) (by decide)).2.1 "bad key"
      (by decide) (by decide)⟩

/-! ## Distinct failure kinds -/

/-- A character of a message at a position stays there when a cause is
appended. -/
theorem mark_append (L x : String) (n : Nat) (c : Char) (h : L.data[n]? = some c) :
    (L ++ x).data[n]? = some c := by
  rw [String.data_append]
  obtain ⟨hn, -⟩ := List.getElem?_eq_some.mp h
  rw [List.getElem?_append_left hn]
  exact h

/-- The error of an initiator run that stops at one of the three checks has,
right after `runIK stage=1 initiator=true` and a blank, a character that tells
the kind: a second blank, `v` or `e`. -/
theorem iFailsAt_mark (E : Env NS Conn PubKey) (s : secureSession NS Conn PubKey)
    (ctx : Context) (payload : Bytes) (k : FailureKind) (h : iFailsAt E s payload k) :
    ∃ m, (runIKAsInitiator E s ctx payload).1.2 = some m ∧
      m.data[29]? = some (match k with
        | .identity => ' '
        | .signature => 'v'
        | .malformed => 'e') := by
  rw [runIKAsInitiator_eq]
  cases k
  · obtain ⟨hkey, hsend, hrecv, hpay, hinfo, hid⟩ := h
    simp only [if_neg hkey, hsend, hrecv, hpay, hinfo]
    by_cases hne : (iDerived E s payload).1 = s.remotePeer
    · rw [if_neg (not_not.mpr hne)]
      rcases hd : (iDerived E s payload).2 with _ | e
      · rcases hid with hid | hid
        · exact absurd hne hid
        · exact absurd hd hid
      · exact ⟨_, rfl, mark_append _ _ _ _ (by decide)⟩
    · rw [if_pos hne]
      exact ⟨_, rfl, mark_append _ _ _ _ (mark_append _ _ _ _ (mark_append _ _ _ _
        (by decide)))⟩
  · obtain ⟨hkey, hsend, hrecv, hpay, hinfo, hid, hderr, hver⟩ := h
    simp only [if_neg hkey, hsend, hrecv, hpay, hinfo, hid, hderr, ne_eq, not_true_eq_false,
      if_false]
    rcases hv : E.verifyPayload (iKeySet E s payload).2 (iPayload E s payload).2
      (s.noiseStaticKeyCache.Load s.remotePeer) with _ | e
    · exact absurd hv hver
    · exact ⟨_, rfl, mark_append _ _ _ _ (by decide)⟩
  · obtain ⟨hkey, hsend, hrecv, hpay⟩ := h
    simp only [if_neg hkey, hsend, hrecv]
    rcases hp : (iPayload E s payload).1 with _ | e
    · exact absurd hp hpay
    · exact ⟨_, rfl, by decide⟩

/-- The error of a responder run that stops at one of the three checks has,
right after `runIK stage=0 initiator=false` and a blank, a character that
tells the kind: `s`, `v` or `e`. -/
theorem rFailsAt_mark (E : Env NS Conn PubKey) (s : secureSession NS Conn PubKey)
    (ctx : Context) (payload : Bytes) (k : FailureKind) (h : rFailsAt E s k) :
    ∃ m, (runIKAsResponder E s ctx payload).1.2 = some m ∧
      m.data[30]? = some (match k with
        | .identity => 's'
        | .signature => 'v'
        | .malformed => 'e') := by
  rw [runIKAsResponder_eq]
  cases k
  · obtain ⟨hrecv, hpay, hinfo, hpeer⟩ := h
    simp only [hrecv, hpay, hinfo]
    rcases hp : (rPeerSet E s).1 with _ | e
    · exact absurd hp hpeer
    · exact ⟨_, rfl, mark_append _ _ _ _ (mark_append _ _ _ _ (by decide))⟩
  · obtain ⟨hrecv, hpay, hinfo, hpeer, hver⟩ := h
    simp only [hrecv, hpay, hinfo, hpeer]
    rcases hv : E.verifyPayload (rPeerSet E s).2 (rPayload E s).2
      (E.RemoteKey (rPeerSet E s).2.ns) with _ | e
    · exact absurd hv hver
    · exact ⟨_, rfl, mark_append _ _ _ _ (by decide)⟩
  · obtain ⟨hrecv, hpay⟩ := h
    simp only [hrecv]
    rcases hp : (rPayload E s).1 with _ | e
    · exact absurd hp hpay
    · exact ⟨_, rfl, by decide⟩

/-- C15. For each role, two runs that stop at checks of different kinds
(identity check, signature check, payload that does not unmarshal) return
non-nil errors that differ, whatever the collaborators, and so the causes they
report, are. -/
theorem failure_kinds_distinct (E1 E2 : Env NS Conn PubKey)
    (s1 s2 : secureSession NS Conn PubKey) (ctx1 ctx2 : Context) (p1 p2 : Bytes)
    (k1 k2 : FailureKind) (hk : k1 ≠ k2) :
    (iFailsAt E1 s1 p1 k1 → iFailsAt E2 s2 p2 k2 →
        (runIKAsInitiator E1 s1 ctx1 p1).1.2 ≠ none ∧
        (runIKAsInitiator E2 s2 ctx2 p2).1.2 ≠ none ∧
        (runIKAsInitiator E1 s1 ctx1 p1).1.2 ≠ (runIKAsInitiator E2 s2 ctx2 p2).1.2) ∧
      (rFailsAt E1 s1 k1 → rFailsAt E2 s2 k2 →
        (runIKAsResponder E1 s1 ctx1 p1).1.2 ≠ none ∧
        (runIKAsResponder E2 s2 ctx2 p2).1.2 ≠ none ∧
        (runIKAsResponder E1 s1 ctx1 p1).1.2 ≠ (runIKAsResponder E2 s2 ctx2 p2).1.2) := by
  refine ⟨?_, ?_⟩
  · intro h1 h2
    obtain ⟨m1, e1, c1⟩ := iFailsAt_mark E1 s1 ctx1 p1 k1 h1
    obtain ⟨m2, e2, c2⟩ := iFailsAt_mark E2 s2 ctx2 p2 k2 h2
    rw [e1, e2]
    refine ⟨by simp, by simp, ?_⟩
    intro heq
    have hm : m1 = m2 := Option.some.inj heq
    subst hm
    rw [c1] at c2
    cases k1 <;> cases k2 <;> first
      | exact hk rfl
      | exact absurd c2 (by decide)
  · intro h1 h2
    obtain ⟨m1, e1, c1⟩ := rFailsAt_mark E1 s1 ctx1 p1 k1 h1
    obtain ⟨m2, e2, c2⟩ := rFailsAt_mark E2 s2 ctx2 p2 k2 h2
    rw [e1, e2]
    refine ⟨by simp, by simp, ?_⟩
    intro heq
    have hm : m1 = m2 := Option.some.inj heq
    subst hm
    rw [c1] at c2
    cases k1 <;> cases k2 <;> first
      | exact hk rfl
      | exact absurd c2 (by decide)

/-- Witness of C15: a sample initiator stopped at the identity check against
one stopped at the signature check, and a sample responder stopped at the
unmarshal against one stopped at the signature check. -/
theorem failure_kinds_distinct_witness :
    (runIKAsInitiator (sampleEnv verifyAny) (sampleSession true [0] [3] (keyOf 9) [[1, 2, 3]])
        background [5]).1.2 ≠
      (runIKAsInitiator (sampleEnv (verifyOnly (keyOf 7)))
        (sampleSession true [] [1] (keyOf 9) [[1, 2, 3]]) background [5]).1.2 ∧
    (runIKAsResponder (sampleEnv verifyAny) (sampleSession false [] [] zeroKey [[]])
        background [5]).1.2 ≠
      (runIKAsResponder (sampleEnv (verifyOnly (keyOf 9)))
        (sampleSession false [] [1] (keyOf 9) [[1, 2, 3]]) background [5]).1.2 :=
  ⟨((failure_kinds_distinct (sampleEnv verifyAny) (sampleEnv (verifyOnly (keyOf 7)))
      (sampleSession true [0] [3] (keyOf 9) [[1, 2, 3]])
      (sampleSession true [] [1] (keyOf 9) [[1, 2, 3]]) background background [5] [5]
      .identity .signature (by decide)).1
      (by unfold iFailsAt; decide) (by unfold iFailsAt; decide)).2.2,
    ((failure_kinds_distinct (sampleEnv verifyAny) (sampleEnv (verifyOnly (keyOf 9)))
      (sampleSession false [] [] zeroKey [[]])
      (sampleSession false [] [1] (keyOf 9) [[1, 2, 3]]) background background [5] [5]
      .malformed .signature (by decide)).2
      (by unfold rFailsAt; decide) (by unfold rFailsAt; decide)).2.2⟩

/-! ## `runIK`: engine initialisation and dispatch -/

/-- C17. `runIK` replaces the engine state by `IKInitSession` applied to the
role, the prologue, the local key pair and the key the cache holds for
`s.remotePeer`, in both roles, and then returns what `runIKAsInitiator` (for an
initiator) or `runIKAsResponder` (for a responder) returns on that session.
For an initiator the key the walk loads, tests against zero and hands to
`verifyPayload` is that same key: when it is all-zero the run returns the
unknown-static-key error with the fresh engine state in place and nothing
logged, and when the run reaches signature verification its result is the
answer of `verifyPayload` on that key. -/
theorem runIK_init_and_dispatch (E : Env NS Conn PubKey) (s : secureSession NS Conn PubKey)
    (ctx : Context) (payload : Bytes) :
    runIK E s ctx payload =
        (if s.initiator then
          runIKAsInitiator E { s with ns := (E.IKInitSession s.initiator s.prologue
            (NewKeypair s.noiseKeypair.publicKey s.noiseKeypair.privateKey)
            (s.noiseStaticKeyCache.Load s.remotePeer)) } ctx payload
        else
          runIKAsResponder E { s with ns := (E.IKInitSession s.initiator s.prologue
            (NewKeypair s.noiseKeypair.publicKey s.noiseKeypair.privateKey)
            (s.noiseStaticKeyCache.Load s.remotePeer)) } ctx payload) ∧
      (s.initiator = true →
        runIK E s ctx payload = runIKAsInitiator E (started E s) ctx payload) ∧
      (s.initiator = false →
        runIK E s ctx payload = runIKAsResponder E (started E s) ctx payload) ∧
      (started E s).ns = E.IKInitSession s.initiator s.prologue
        (NewKeypair s.noiseKeypair.publicKey s.noiseKeypair.privateKey)
        (s.noiseStaticKeyCache.Load s.remotePeer) ∧
      (started E s).noiseStaticKeyCache.Load (started E s).remotePeer =
        s.noiseStaticKeyCache.Load s.remotePeer ∧
      (s.initiator = true → s.noiseStaticKeyCache.Load s.remotePeer = zeroKey →
        (runIK E s ctx payload).1 =
          (none,
            some ("runIK aborting - unknown static key for peer " ++ E.Pretty s.remotePeer)) ∧
        (runIK E s ctx payload).2.ns = E.IKInitSession true s.prologue
          (NewKeypair s.noiseKeypair.publicKey s.noiseKeypair.privateKey) zeroKey ∧
        (runIK E s ctx payload).2.trace = s.trace) ∧
      (s.initiator = true → s.noiseStaticKeyCache.Load s.remotePeer ≠ zeroKey →
        (iSent E (started E s) payload).1 = none →
        (iRecvd E (started E s) payload).1.2.2 = none →
        (iPayload E (started E s) payload).1 = none →
        (iKeySet E (started E s) payload).1 = none →
        (iDerived E (started E s) payload).1 = s.remotePeer →
        (iDerived E (started E s) payload).2 = none →
        (runIK E s ctx payload).1 =
          ((iRecvd E (started E s) payload).1.1,
            (E.verifyPayload (iKeySet E (started E s) payload).2
              (iPayload E (started E s) payload).2
              (s.noiseStaticKeyCache.Load s.remotePeer)).map
              fun e => "runIK stage=1 initiator=true verify payload err=" ++ e)) := by
  refine ⟨rfl, ?_, ?_, rfl, rfl, ?_, ?_⟩
  · intro hi
    rw [runIK_eq, if_pos hi]
  · intro hi
    rw [runIK_eq, if_neg (by simp [hi])]
  · intro hi hz
    have hz2 : (started E s).noiseStaticKeyCache.Load (started E s).remotePeer = zeroKey := hz
    rw [runIK_eq, if_pos hi, runIKAsInitiator_eq, if_pos hz2]
    refine ⟨rfl, ?_, rfl⟩
    show (started E s).ns = _
    simp [started, hi, hz]
  · intro hi hk hsend hrecv hpay hinfo hid hderr
    have hk2 : (started E s).noiseStaticKeyCache.Load (started E s).remotePeer ≠ zeroKey := hk
    have hid2 : (iDerived E (started E s) payload).1 = (started E s).remotePeer := hid
    have hl : (started E s).noiseStaticKeyCache.Load (started E s).remotePeer =
        s.noiseStaticKeyCache.Load s.remotePeer := rfl
    rw [runIK_eq, if_pos hi, runIKAsInitiator_eq, if_neg hk2]
    simp only [hsend, hrecv, hpay, hinfo, hid2, hderr, ne_eq, not_true_eq_false, if_false, hl]
    rcases E.verifyPayload (iKeySet E (started E s) payload).2
      (iPayload E (started E s) payload).2 (s.noiseStaticKeyCache.Load s.remotePeer) with _ | e
    · rfl
    · rfl

/-- Witness of C17: the sample initiator with an all-zero cache entry and the
prologue `00 00` starts on the engine state `7` and ends on the fresh engine
state `2`; the sample responder goes through `runIKAsResponder`. -/
theorem runIK_init_and_dispatch_witness :
    ({ sampleSession true [0, 0] [1] zeroKey [[1, 2, 3]] with ns := 7 } :
        secureSession Nat (List Bytes) Bytes).ns = 7 ∧
      (runIK (sampleEnv verifyAny) { sampleSession true [0, 0] [1] zeroKey [[1, 2, 3]] with ns := 7 }
        background [5]).2.ns = 2 ∧
      runIK (sampleEnv verifyAny) (sampleSession false [] [] zeroKey [[1, 2, 3]]) background [5] =
        runIKAsResponder (sampleEnv verifyAny)
          (started (sampleEnv verifyAny) (sampleSession false [] [] zeroKey [[1, 2, 3]]))
          background [5] :=
  ⟨rfl,
    ((runIK_init_and_dispatch (sampleEnv verifyAny)
      { sampleSession true [0, 0] [1] zeroKey [[1, 2, 3]] with ns := 7 } background [5]).2.2.2.2.2.1
      rfl (by decide)).2.1,
    (runIK_init_and_dispatch (sampleEnv verifyAny)
      (sampleSession false [] [] zeroKey [[1, 2, 3]]) background [5]).2.2.1 rfl⟩

end Noise
